import Mathlib

/-!
Shallow embedding of the traffic-signal controller
(`src/controller/light_controller.py`) of the Traffic-Vision repository.

Python dictionaries are modelled as insertion-ordered association lists
(`List (String × α)`): reading a missing key (`d[k]`, a `KeyError`) is
modelled with `Option`, `d.get(k, v)` with a defaulted lookup, and writing
`d[k] = v` replaces the value in place or appends a fresh key at the end,
exactly as a Python dict does.  Python float arithmetic is modelled by
exact rational arithmetic over the fraction type `Q` (an integer
numerator/denominator pair, kept unnormalised so that every operation is
a plain integer computation the kernel can evaluate); `Q.toRat` maps it
to Mathlib's `ℚ` and the bridge lemmas below show the `Q` operations
agree with the exact rational ones.  `int(...)` is truncation toward
zero.  Wall-clock time (`time.time()`) is passed in explicitly as a
`now` parameter; one call uses a single instant.  Operations that can
raise return `Option`.
-/

namespace TrafficVision

/-- Python `d[k]` on a dict modelled as an insertion-ordered assoc list:
`some` of the first binding, `none` models a `KeyError`. -/
def alGet {α : Type} (d : List (String × α)) (k : String) : Option α :=
  match d with
  | [] => none
  | (k1, v) :: t => if k1 = k then some v else alGet t k

/-- Python `d.get(k, dflt)`. -/
def alGetD {α : Type} (d : List (String × α)) (k : String) (dflt : α) : α :=
  (alGet d k).getD dflt

/-- Python `d[k] = v`: replace in place if the key is present, else append. -/
def alSet {α : Type} (d : List (String × α)) (k : String) (v : α) :
    List (String × α) :=
  match d with
  | [] => [(k, v)]
  | (k1, v1) :: t => if k1 = k then (k1, v) :: t else (k1, v1) :: alSet t k v

/-- Python `d.pop(k, None)`: drop the binding for `k` if present. -/
def alPop {α : Type} (d : List (String × α)) (k : String) :
    List (String × α) :=
  match d with
  | [] => []
  | (k1, v1) :: t => if k1 = k then t else (k1, v1) :: alPop t k

/-- Python `k in d`. -/
def alHas {α : Type} (d : List (String × α)) (k : String) : Bool :=
  (alGet d k).isSome

/-- Python `l.index(x)`: index of the first occurrence, `none` models the
`ValueError` raised when `x` is absent. -/
def listIndex (l : List String) (x : String) : Option Nat :=
  match l with
  | [] => none
  | y :: t => if y = x then some 0 else (listIndex t x).map (· + 1)

/-- Exact fractions with a kernel-computable representation: Python float
values are modelled by the rational `num / den` with `0 < den` for every
value the embedding builds. -/
structure Q : Type where
  num : ℤ
  den : ℤ
deriving DecidableEq, Repr

/-- The rational denoted by a fraction. -/
def Q.toRat (a : Q) : ℚ := (a.num : ℚ) / (a.den : ℚ)

/-- An integer as a fraction. -/
def Q.ofInt (n : ℤ) : Q := ⟨n, 1⟩

/-- Fraction addition. -/
def Q.add (a b : Q) : Q := ⟨a.num * b.den + b.num * a.den, a.den * b.den⟩

/-- Fraction subtraction. -/
def Q.sub (a b : Q) : Q := ⟨a.num * b.den - b.num * a.den, a.den * b.den⟩

/-- Fraction multiplication. -/
def Q.mul (a b : Q) : Q := ⟨a.num * b.num, a.den * b.den⟩

/-- Fraction division (sign moved into the numerator so the denominator
stays positive). -/
def Q.div (a b : Q) : Q :=
  if b.num < 0 then ⟨-(a.num * b.den), a.den * (-b.num)⟩
  else ⟨a.num * b.den, a.den * b.num⟩

/-- Fraction comparison `a ≤ b` by cross-multiplication (valid because
every denominator is positive). -/
def Q.le (a b : Q) : Bool := decide (a.num * b.den ≤ b.num * a.den)

/-- Python `max` on two float values (returns the first on ties). -/
def Q.pymax (a b : Q) : Q := if Q.le b a then a else b

/-- Positive-denominator well-formedness of a fraction. -/
def Q.WF (a : Q) : Prop := 0 < a.den

/-- Python `int(q)` on a float value: truncation toward zero
(for a positive denominator). -/
def pyInt (q : Q) : ℤ :=
  if 0 ≤ q.num then q.num / q.den else -((-q.num) / q.den)

/-- Truncation toward zero on exact rationals, the specification-side
meaning of Python `int(...)`. -/
def ratTrunc (q : ℚ) : ℤ :=
  if 0 ≤ q then ⌊q⌋ else -⌊-q⌋

/-- Python `str.lower()` over the character list (ASCII case folding,
which is all the weight table distinguishes). -/
def pyLower (s : String) : String :=
  String.mk (s.data.map Char.toLower)

/-- The vehicle-type weight table of `calculate_adaptive_timing`
(`weights.get(vehicle_type.lower(), 1.0)`): car 1.0, truck 2.0, bus 2.0,
motorcycle 0.5, bicycle 0.3, anything else 1.0. -/
def vehicleWeight (s : String) : Q :=
  let t := pyLower s
  if t = "car" then ⟨1, 1⟩
  else if t = "truck" then ⟨2, 1⟩
  else if t = "bus" then ⟨2, 1⟩
  else if t = "motorcycle" then ⟨1, 2⟩
  else if t = "bicycle" then ⟨3, 10⟩
  else ⟨1, 1⟩

/-- `TrafficLightState` — the four states of a signal head. -/
inductive TrafficLightState : Type
  | RED
  | YELLOW
  | GREEN
  | PEDESTRIAN
deriving DecidableEq, Repr

open TrafficLightState

/-- `TrafficLightConfig` — static per-light configuration. -/
structure TrafficLightConfig : Type where
  id : String
  name : String
  zone_id : String
  min_green_time : ℤ := 16
  max_green_time : ℤ := 60
  yellow_duration : ℤ := 3
  position : ℤ × ℤ := (0, 0)
  pedestrian_min_time : ℤ := 10
  pedestrian_max_time : ℤ := 30
  emergency_buffer_time : ℤ := 5
deriving DecidableEq, Repr

/-- `TrafficLight` — one signal head with its mutable timing state. -/
structure TrafficLight : Type where
  config : TrafficLightConfig
  state : TrafficLightState
  last_state_change : Q
  current_duration : ℤ
  time_remaining : Q
  pedestrian_duration : ℤ
deriving DecidableEq, Repr

/-- `TrafficLight.__init__`. -/
def mkTrafficLight (config : TrafficLightConfig) (now : Q) : TrafficLight :=
  { config := config
    state := RED
    last_state_change := now
    current_duration := config.min_green_time
    time_remaining := Q.ofInt 0
    pedestrian_duration := config.pedestrian_min_time }

/-- `TrafficLight.set_state(state, duration=None)`. -/
def TrafficLight.set_state (l : TrafficLight) (state : TrafficLightState)
    (duration : Option ℤ) (now : Q) : TrafficLight :=
  let l := { l with state := state, last_state_change := now }
  match state, duration with
  | GREEN, some d =>
      { l with current_duration :=
                 max l.config.min_green_time (min d l.config.max_green_time) }
  | YELLOW, _ =>
      { l with current_duration := l.config.yellow_duration }
  | PEDESTRIAN, some d =>
      { l with current_duration :=
                 max l.config.pedestrian_min_time
                   (min d l.config.pedestrian_max_time) }
  | _, _ =>
      { l with current_duration := 0 }

/-- `TrafficLight.update()` — ages the light by wall-clock time; returns the
new light and the transition flag. -/
def TrafficLight.update (l : TrafficLight) (now : Q) : TrafficLight × Bool :=
  if l.state = GREEN ∨ l.state = PEDESTRIAN then
    if Q.le (Q.ofInt l.current_duration) (Q.sub now l.last_state_change) then
      if l.state = GREEN then (l.set_state YELLOW none now, true)
      else (l.set_state RED none now, true)
    else
      ({ l with time_remaining :=
                  Q.pymax (Q.ofInt 0)
                    (Q.sub (Q.ofInt l.current_duration)
                      (Q.sub now l.last_state_change)) },
       false)
  else if l.state = YELLOW then
    if Q.le (Q.ofInt l.config.yellow_duration) (Q.sub now l.last_state_change) then
      (l.set_state RED none now, true)
    else
      ({ l with time_remaining :=
                  Q.pymax (Q.ofInt 0)
                    (Q.sub (Q.ofInt l.current_duration)
                      (Q.sub now l.last_state_change)) },
       false)
  else
    (l, false)

/-- `TrafficLightController` — all mutable controller state
(`TrafficLightController.__init__`). -/
structure Controller : Type where
  traffic_lights : List (String × TrafficLight) := []
  intersections : List (String × List String) := []
  active_phase : List (String × String) := []
  phase_start_time : List (String × Q) := []
  adaptive_mode : Bool := true
  last_traffic_data : List (String × List (String × ℤ)) := []
  pedestrian_phase_active : List (String × Bool) := []
  last_pedestrian_data : List (String × ℤ) := []
  pedestrian_phase_complete : List (String × Bool) := []
  adaptive_mode_changed : Bool := false
  last_adaptive_mode : Bool := true
  emergency_active : List (String × Bool) := []
  emergency_vehicle_zone : List (String × String) := []
  emergency_start_time : List (String × Q) := []
  emergency_buffer_active : List (String × Bool) := []
  accident_detected : Bool := false
  accident_zones : List String := []
deriving DecidableEq, Repr

/-- A controller as built by `TrafficLightController()` without a config file. -/
def initController : Controller := {}

/-- `add_traffic_light(config)`. -/
def add_traffic_light (c : Controller) (config : TrafficLightConfig)
    (now : Q) : Controller :=
  { c with traffic_lights :=
             alSet c.traffic_lights config.id (mkTrafficLight config now) }

/-- Looks up a light and stores a rewritten copy; `none` models the
`KeyError` of `self.traffic_lights[light_id]`. -/
def withLight (c : Controller) (lid : String)
    (f : TrafficLight → TrafficLight) : Option Controller :=
  (alGet c.traffic_lights lid).map fun l =>
    { c with traffic_lights := alSet c.traffic_lights lid (f l) }

/-- One step of a loop that sets a light to `RED`
(`self.traffic_lights[tid].set_state(TrafficLightState.RED)`). -/
def redStep (now : Q) (c : Controller) (tid : String) : Option Controller :=
  withLight c tid fun l => l.set_state RED none now

/-- `create_intersection(intersection_id, traffic_light_ids)`;
`none` models the `ValueError` raised when no id is valid. -/
def create_intersection (c : Controller) (intersection_id : String)
    (traffic_light_ids : List String) (now : Q) : Option Controller :=
  let valid_ids := traffic_light_ids.filter fun tid => alHas c.traffic_lights tid
  match valid_ids with
  | [] => none
  | first :: rest =>
    let c := { c with
      intersections := alSet c.intersections intersection_id valid_ids,
      active_phase := alSet c.active_phase intersection_id first,
      phase_start_time := alSet c.phase_start_time intersection_id now }
    (withLight c first fun l => l.set_state GREEN none now).bind fun c =>
      let c := { c with
        pedestrian_phase_active :=
          alSet c.pedestrian_phase_active intersection_id false,
        pedestrian_phase_complete :=
          alSet c.pedestrian_phase_complete intersection_id false }
      rest.foldlM (redStep now) c

/-- `update_traffic_data(traffic_data, pedestrian_data=None)`.  An absent or
empty (falsy) pedestrian dict leaves the stored pedestrian data untouched. -/
def update_traffic_data (c : Controller)
    (traffic_data : List (String × List (String × ℤ)))
    (pedestrian_data : Option (List (String × ℤ))) : Controller :=
  let c := { c with last_traffic_data := traffic_data }
  match pedestrian_data with
  | none => c
  | some pd =>
    if pd = [] then c
    else
      let c := { c with last_pedestrian_data := pd }
      c.intersections.foldl
        (fun c e =>
          if alGetD c.pedestrian_phase_active e.1 false then c
          else { c with pedestrian_phase_complete :=
                          alSet c.pedestrian_phase_complete e.1 false })
        c

/-- One iteration of the `_set_emergency_priority` loop. -/
def sepStep (intersection_id priority_light_id : String) (now : Q)
    (c : Controller) (light_id : String) : Option Controller :=
  if light_id = priority_light_id then
    (withLight c light_id fun l =>
      l.set_state GREEN (some l.config.max_green_time) now).map fun c =>
        { c with active_phase :=
                   alSet c.active_phase intersection_id light_id }
  else
    withLight c light_id fun l => l.set_state RED none now

/-- `_set_emergency_priority(intersection_id, priority_light_id)`. -/
def set_emergency_priority (c : Controller) (intersection_id : String)
    (priority_light_id : String) (now : Q) : Option Controller :=
  (alGet c.intersections intersection_id).bind fun light_ids =>
    light_ids.foldlM (sepStep intersection_id priority_light_id now) c

/-- `report_emergency_vehicle(zone_id, is_present)`.  The absent-`zone_id`
(`if not zone_id`) falsy test is modelled by the empty string. -/
def report_emergency_vehicle (c : Controller) (zone_id : String)
    (is_p : Bool) (now : Q) : Option (Controller × Bool) :=
  if zone_id = "" then some (c, false)
  else
    let affected_light :=
      (c.traffic_lights.find? fun p => p.2.config.zone_id = zone_id).map (·.1)
    let affected_intersection :=
      affected_light.bind fun lid =>
        (c.intersections.find? fun p => lid ∈ p.2).map (·.1)
    match affected_intersection, affected_light with
    | some iid, some lid =>
      if iid = "" ∨ lid = "" then some (c, false)
      else if is_p ∧ ¬ alGetD c.emergency_active iid false then
        let c := { c with
          emergency_active := alSet c.emergency_active iid true,
          emergency_vehicle_zone := alSet c.emergency_vehicle_zone iid zone_id,
          emergency_start_time := alSet c.emergency_start_time iid now,
          emergency_buffer_active := alSet c.emergency_buffer_active iid false }
        (set_emergency_priority c iid lid now).map fun c => (c, true)
      else if ¬ is_p ∧ alGetD c.emergency_active iid false then
        if ¬ alGetD c.emergency_buffer_active iid false then
          some ({ c with
            emergency_buffer_active := alSet c.emergency_buffer_active iid true,
            emergency_start_time := alSet c.emergency_start_time iid now }, false)
        else some (c, false)
      else some (c, false)
    | _, _ => some (c, false)

/-- `_handle_accident_response()` — forces every light to `RED`. -/
def handle_accident_response (c : Controller) (now : Q) : Controller :=
  { c with traffic_lights :=
      c.traffic_lights.map fun p => (p.1, p.2.set_state RED none now) }

/-- `report_accident(accident_detected, zone_id=None)`. -/
def report_accident (c : Controller) (detected : Bool)
    (zone_id : Option String) (now : Q) : Controller × Bool :=
  if detected then
    if ¬ c.accident_detected then
      let c := { c with accident_detected := true }
      let c := match zone_id with
        | some z =>
            if z ∈ c.accident_zones then c
            else { c with accident_zones := c.accident_zones ++ [z] }
        | none => c
      (handle_accident_response c now, true)
    else
      match zone_id with
      | some z =>
          if z ∈ c.accident_zones then (c, false)
          else ({ c with accident_zones := c.accident_zones ++ [z] }, false)
      | none => (c, false)
  else
    let c := match zone_id with
      | some z => { c with accident_zones := c.accident_zones.filter (· ≠ z) }
      | none => c
    if c.accident_zones = [] ∧ c.accident_detected then
      ({ c with accident_detected := false }, true)
    else (c, false)

/-- `_check_emergency_buffer(intersection_id)`. -/
def check_emergency_buffer (c : Controller) (intersection_id : String)
    (now : Q) : Option (Controller × Bool) :=
  if ¬ alGetD c.emergency_buffer_active intersection_id false then some (c, false)
  else
    (alGet c.intersections intersection_id).bind fun light_ids =>
      let bt : Option ℤ :=
        match light_ids with
        | [] => some 5
        | first :: _ =>
            (alGet c.traffic_lights first).map fun l =>
              l.config.emergency_buffer_time
      bt.bind fun buffer_time =>
        let elapsed :=
          Q.sub now (alGetD c.emergency_start_time intersection_id (Q.ofInt 0))
        if Q.le (Q.ofInt buffer_time) elapsed then
          some ({ c with
            emergency_active := alSet c.emergency_active intersection_id false,
            emergency_buffer_active :=
              alSet c.emergency_buffer_active intersection_id false,
            emergency_vehicle_zone :=
              alPop c.emergency_vehicle_zone intersection_id }, true)
        else some (c, false)

/-- The weighted vehicle sum of `calculate_adaptive_timing` (Python float
arithmetic modelled by exact fractions). -/
def weightedSum (zone_data : List (String × ℤ)) : Q :=
  zone_data.foldl
    (fun acc p => Q.add acc (Q.mul (Q.ofInt p.2) (vehicleWeight p.1)))
    (Q.ofInt 0)

/-- `calculate_adaptive_timing(intersection_id, next_light_id)`.  When the
light id is unknown the adaptive branch raises `KeyError` (`none`); the
`next_light_id not in self.traffic_lights` early return is unreachable
because its own body indexes the missing key first. -/
def calculate_adaptive_timing (c : Controller) (intersection_id : String)
    (next_light_id : String) : Option ℤ :=
  let _ := intersection_id
  if ¬ c.adaptive_mode then
    (alGet c.traffic_lights next_light_id).map fun l => l.config.max_green_time
  else
    (alGet c.traffic_lights next_light_id).map fun l =>
      match alGet c.last_traffic_data l.config.zone_id with
      | none => l.config.min_green_time
      | some zone_data =>
        let ws := weightedSum zone_data
        let base_time := l.config.min_green_time
        let max_time := l.config.max_green_time
        if Q.le ws (Q.ofInt 2) then base_time
        else if Q.le (Q.ofInt 20) ws then max_time
        else
          pyInt (Q.add (Q.ofInt base_time)
            (Q.mul (Q.div (Q.sub ws (Q.ofInt 2)) (Q.ofInt 18))
              (Q.sub (Q.ofInt max_time) (Q.ofInt base_time))))

/-- `calculate_pedestrian_timing(intersection_id)`. -/
def calculate_pedestrian_timing (c : Controller) (intersection_id : String) :
    Option ℤ :=
  if ¬ c.adaptive_mode then
    (alGet c.intersections intersection_id).bind fun ids =>
      ids.head?.bind fun sample_light_id =>
        (alGet c.traffic_lights sample_light_id).map fun l =>
          l.config.pedestrian_max_time
  else
    let total_pedestrians : ℤ :=
      c.last_pedestrian_data.foldl (fun acc p => acc + p.2) 0
    (alGet c.intersections intersection_id).bind fun ids =>
      ids.head?.bind fun sample_light_id =>
        (alGet c.traffic_lights sample_light_id).map fun l =>
          let min_time := l.config.pedestrian_min_time
          let max_time := l.config.pedestrian_max_time
          if total_pedestrians ≤ 2 then min_time
          else if total_pedestrians ≥ 15 then max_time
          else
            pyInt (Q.add (Q.ofInt min_time)
              (Q.mul (Q.div (Q.sub (Q.ofInt total_pedestrians) (Q.ofInt 2))
                  (Q.ofInt 13))
                (Q.sub (Q.ofInt max_time) (Q.ofInt min_time))))

/-- One step of the loop that puts every member light of an intersection
into the `PEDESTRIAN` state. -/
def pedStep (ped_duration : ℤ) (now : Q) (c : Controller) (lid : String) :
    Option Controller :=
  withLight c lid fun l => l.set_state PEDESTRIAN (some ped_duration) now

/-- One intersection of the phase-change loop at the bottom of
`update_all_lights`. -/
def processIntersection (now : Q) (acc : Controller × Bool)
    (entry : String × List String) : Option (Controller × Bool) :=
  let c := acc.1
  let ch := acc.2
  let intersection_id := entry.1
  let light_ids := entry.2
  if alGetD c.emergency_active intersection_id false then some (c, ch)
  else if ¬ alHas c.active_phase intersection_id then
    light_ids.head?.bind fun first =>
      let c := { c with
        active_phase := alSet c.active_phase intersection_id first,
        phase_start_time := alSet c.phase_start_time intersection_id now }
      (withLight c first fun l => l.set_state GREEN none now).map fun c =>
        ({ c with
           pedestrian_phase_active :=
             alSet c.pedestrian_phase_active intersection_id false,
           pedestrian_phase_complete :=
             alSet c.pedestrian_phase_complete intersection_id false }, true)
  else
    (alGet c.active_phase intersection_id).bind fun active_light_id =>
      (alGet c.traffic_lights active_light_id).bind fun active_light =>
        if alGetD c.pedestrian_phase_active intersection_id false then
          if active_light.state = PEDESTRIAN then some (c, ch)
          else
            let c := { c with
              pedestrian_phase_active :=
                alSet c.pedestrian_phase_active intersection_id false,
              pedestrian_phase_complete :=
                alSet c.pedestrian_phase_complete intersection_id true }
            (listIndex light_ids active_light_id).bind fun current_idx =>
              let next_idx := (current_idx + 1) % light_ids.length
              (light_ids.get? next_idx).bind fun next_light_id =>
                (calculate_adaptive_timing c intersection_id
                    next_light_id).bind fun adaptive_duration =>
                  (withLight c next_light_id fun l =>
                      l.set_state GREEN (some adaptive_duration) now).map fun c =>
                    ({ c with
                       active_phase :=
                         alSet c.active_phase intersection_id next_light_id,
                       phase_start_time :=
                         alSet c.phase_start_time intersection_id now }, true)
        else if active_light.state = RED then
          (listIndex light_ids active_light_id).bind fun current_idx =>
            let next_idx := (current_idx + 1) % light_ids.length
            let c :=
              if next_idx = 0 then
                { c with pedestrian_phase_complete :=
                    alSet c.pedestrian_phase_complete intersection_id false }
              else c
            if next_idx = 0 ∧
                ¬ alGetD c.pedestrian_phase_complete intersection_id false then
              let c := { c with
                pedestrian_phase_active :=
                  alSet c.pedestrian_phase_active intersection_id true,
                pedestrian_phase_complete :=
                  alSet c.pedestrian_phase_complete intersection_id false }
              (calculate_pedestrian_timing c intersection_id).bind
                fun ped_duration =>
                  (light_ids.foldlM (pedStep ped_duration now) c).map
                    fun c => (c, true)
            else
              (light_ids.get? next_idx).bind fun next_light_id =>
                let c :=
                  if next_idx = 0 then
                    { c with pedestrian_phase_complete :=
                        alSet c.pedestrian_phase_complete intersection_id false }
                  else c
                (calculate_adaptive_timing c intersection_id
                    next_light_id).bind fun adaptive_duration =>
                  (withLight c next_light_id fun l =>
                      l.set_state GREEN (some adaptive_duration) now).map fun c =>
                    ({ c with
                       active_phase :=
                         alSet c.active_phase intersection_id next_light_id,
                       phase_start_time :=
                         alSet c.phase_start_time intersection_id now }, true)
        else some (c, ch)

/-- One iteration of the emergency-status loop at the top of
`update_all_lights`. -/
def emStep (now : Q) (acc : Controller × Bool) (iid : String) :
    Option (Controller × Bool) :=
  if alGetD acc.1.emergency_active iid false then
    (check_emergency_buffer acc.1 iid now).map fun r => (r.1, acc.2 || r.2)
  else some acc

/-- `update_all_lights()` — the controller tick; `none` models an uncaught
exception. -/
def update_all_lights (c : Controller) (now : Q) : Option (Controller × Bool) :=
  let c := { c with
    adaptive_mode_changed := c.adaptive_mode != c.last_adaptive_mode,
    last_adaptive_mode := c.adaptive_mode }
  if c.accident_detected then
    some (handle_accident_response c now, false)
  else
    ((c.emergency_active.map Prod.fst).foldlM (emStep now) (c, false)).bind
      fun acc =>
      let c := acc.1
      let updated : List (String × (TrafficLight × Bool)) :=
        c.traffic_lights.map fun p => (p.1, p.2.update now)
      let c := { c with traffic_lights :=
                   updated.map fun (p : String × (TrafficLight × Bool)) =>
                     (p.1, p.2.1) }
      let ch := acc.2 || updated.any fun p => p.2.2
      c.intersections.foldlM (processIntersection now) (c, ch)

/-- `toggle_adaptive_mode()`. -/
def toggle_adaptive_mode (c : Controller) : Controller × Bool :=
  let c := { c with adaptive_mode := ¬ c.adaptive_mode,
                    adaptive_mode_changed := true }
  (c, c.adaptive_mode)

/-- One JSON object of the `"traffic_lights"` array of a persisted
configuration file; every key may be absent in a hand-written file. -/
structure LightEntry : Type where
  id : Option String := none
  name : Option String := none
  zone_id : Option String := none
  min_green_time : Option ℤ := none
  max_green_time : Option ℤ := none
  yellow_duration : Option ℤ := none
  pedestrian_min_time : Option ℤ := none
  pedestrian_max_time : Option ℤ := none
  position : Option (ℤ × ℤ) := none
  emergency_buffer_time : Option ℤ := none
deriving DecidableEq, Repr

/-- The JSON document written by `save_configuration` and read by
`load_configuration` (a missing top-level key behaves as the
`config_data.get(..., default)` default). -/
structure ConfigData : Type where
  traffic_lights : List LightEntry := []
  intersections : List (String × List String) := []
deriving DecidableEq, Repr

/-- `TrafficLightConfig.asdict()` as a JSON light entry. -/
def entryOfConfig (cfg : TrafficLightConfig) : LightEntry :=
  { id := some cfg.id
    name := some cfg.name
    zone_id := some cfg.zone_id
    min_green_time := some cfg.min_green_time
    max_green_time := some cfg.max_green_time
    yellow_duration := some cfg.yellow_duration
    position := some cfg.position
    pedestrian_min_time := some cfg.pedestrian_min_time
    pedestrian_max_time := some cfg.pedestrian_max_time
    emergency_buffer_time := some cfg.emergency_buffer_time }

/-- `save_configuration(file_path)`: the document written (the file I/O
itself carries no controller state). -/
def save_configuration (c : Controller) : ConfigData :=
  { traffic_lights := c.traffic_lights.map fun p => entryOfConfig p.2.config
    intersections := c.intersections }

/-- The `for light_config in config_data.get("traffic_lights", [])` loop of
`load_configuration`: a light entry missing one of the required keys
(`id`, `name`, `zone_id`) raises `KeyError`, which the surrounding
`except` turns into a `False` return with the lights added so far kept. -/
def loadLights (c : Controller) (entries : List LightEntry) (now : Q) :
    Controller × Bool :=
  match entries with
  | [] => (c, true)
  | e :: t =>
    match e.id, e.name, e.zone_id with
    | some i, some n, some z =>
        loadLights
          (add_traffic_light c
            { id := i
              name := n
              zone_id := z
              min_green_time := e.min_green_time.getD 16
              max_green_time := e.max_green_time.getD 60
              yellow_duration := e.yellow_duration.getD 3
              pedestrian_min_time := e.pedestrian_min_time.getD 10
              pedestrian_max_time := e.pedestrian_max_time.getD 30
              position := e.position.getD (0, 0)
              emergency_buffer_time := e.emergency_buffer_time.getD 5 } now)
          t now
    | _, _, _ => (c, false)

/-- One entry of the intersections loop of `load_configuration`: a
`ValueError` from `create_intersection` is caught and the entry skipped. -/
def loadIntersectionStep (now : Q) (c : Controller)
    (e : String × List String) : Controller :=
  match create_intersection c e.1 e.2 now with
  | some c2 => c2
  | none => c

/-- `load_configuration(file_path)`.  `parsed = none` models a file that
cannot be opened or parsed (the failure happens before any state is
cleared); intersection entries whose `create_intersection` raises
`ValueError` are skipped. -/
def load_configuration (c : Controller) (parsed : Option ConfigData)
    (now : Q) : Controller × Bool :=
  match parsed with
  | none => (c, false)
  | some cfg =>
    let c := { c with traffic_lights := [], intersections := [],
                      active_phase := [] }
    match loadLights c cfg.traffic_lights now with
    | (c, false) => (c, false)
    | (c, true) =>
        (cfg.intersections.foldl (loadIntersectionStep now) c, true)

/-! ### Association-list and fold lemmas -/

theorem alGet_alSet {α : Type} (d : List (String × α)) (k k1 : String) (v : α) :
    alGet (alSet d k v) k1 = if k = k1 then some v else alGet d k1 := by
  induction d with
  | nil => by_cases h : k = k1 <;> simp [alGet, alSet, h]
  | cons p t ih =>
    obtain ⟨k2, v2⟩ := p
    by_cases h2 : k2 = k
    · subst h2
      by_cases h : k2 = k1 <;> simp [alGet, alSet, h]
    · by_cases h : k2 = k1
      · subst h
        simp [alGet, alSet, h2, Ne.symm h2]
      · simp [alGet, alSet, h2, h, ih]

theorem alGetD_alSet {α : Type} (d : List (String × α)) (k k1 : String)
    (v dflt : α) :
    alGetD (alSet d k v) k1 dflt = if k = k1 then v else alGetD d k1 dflt := by
  by_cases h : k = k1 <;> simp [alGetD, alGet_alSet, h]

theorem alGet_alPop_ne {α : Type} (d : List (String × α)) (k k1 : String)
    (h : k ≠ k1) : alGet (alPop d k) k1 = alGet d k1 := by
  induction d with
  | nil => simp [alGet, alPop]
  | cons p t ih =>
    obtain ⟨k2, v2⟩ := p
    by_cases h2 : k2 = k
    · subst h2
      simp [alGet, alPop, h]
    · simp [alGet, alPop, h2]
      by_cases h1 : k2 = k1 <;> simp [h1, ih]

theorem alGet_eq_none_of_not_mem {α : Type} (d : List (String × α))
    (k : String) (h : k ∉ d.map Prod.fst) : alGet d k = none := by
  induction d with
  | nil => simp [alGet]
  | cons p t ih =>
    obtain ⟨k1, v1⟩ := p
    simp only [List.map_cons, List.mem_cons, not_or] at h
    have hne : ¬ (k1 = k) := fun he => h.1 he.symm
    show (if k1 = k then some v1 else alGet t k) = none
    rw [if_neg hne]
    exact ih h.2

theorem alGet_alPop_self {α : Type} (d : List (String × α)) (k : String)
    (h : (d.map Prod.fst).Nodup) : alGet (alPop d k) k = none := by
  induction d with
  | nil => simp [alGet, alPop]
  | cons p t ih =>
    obtain ⟨k2, v2⟩ := p
    simp only [List.map_cons, List.nodup_cons] at h
    by_cases h2 : k2 = k
    · subst h2
      simp only [alPop, if_pos rfl]
      exact alGet_eq_none_of_not_mem t k2 h.1
    · simp [alPop, alGet, h2, ih h.2]

theorem alGet_mapVal {α β : Type} (d : List (String × α)) (f : α → β)
    (k : String) :
    alGet (d.map fun p => (p.1, f p.2)) k = (alGet d k).map f := by
  induction d with
  | nil => simp [alGet]
  | cons p t ih =>
    obtain ⟨k1, v1⟩ := p
    by_cases h : k1 = k <;> simp [alGet, h, ih]

theorem alGet_append {α : Type} (d1 d2 : List (String × α)) (k : String) :
    alGet (d1 ++ d2) k
      = match alGet d1 k with
        | some v => some v
        | none => alGet d2 k := by
  induction d1 with
  | nil => simp [alGet]
  | cons p t ih =>
    obtain ⟨k1, v1⟩ := p
    by_cases h : k1 = k <;> simp [alGet, h, ih]

theorem alSet_append {α : Type} (d : List (String × α)) (k : String) (v : α)
    (h : alGet d k = none) : alSet d k v = d ++ [(k, v)] := by
  induction d with
  | nil => rfl
  | cons p t ih =>
    obtain ⟨k1, v1⟩ := p
    by_cases h1 : k1 = k
    · rw [h1] at h
      unfold alGet at h
      rw [if_pos rfl] at h
      exact absurd h (by simp)
    · unfold alGet at h
      rw [if_neg h1] at h
      show (if k1 = k then _ else _) = _
      rw [if_neg h1, ih h]
      rfl

theorem alHas_eq_of_keys_eq {α β : Type} (d1 : List (String × α))
    (d2 : List (String × β)) (hk : d1.map Prod.fst = d2.map Prod.fst)
    (k : String) : alHas d1 k = alHas d2 k := by
  induction d1 generalizing d2 with
  | nil =>
    cases d2 with
    | nil => rfl
    | cons q t2 => simp at hk
  | cons p t ih =>
    cases d2 with
    | nil => simp at hk
    | cons q t2 =>
      obtain ⟨k1, v1⟩ := p
      obtain ⟨k2, v2⟩ := q
      simp only [List.map_cons, List.cons.injEq] at hk
      unfold alHas alGet
      rw [hk.1]
      by_cases h : k2 = k
      · simp [h]
      · rw [if_neg h, if_neg h]
        exact ih t2 hk.2

theorem configMap_alSet (d : List (String × TrafficLight)) (k : String)
    (v l : TrafficLight) (hget : alGet d k = some l) (hc : v.config = l.config) :
    (alSet d k v).map (fun p => (p.1, p.2.config))
      = d.map (fun p => (p.1, p.2.config)) := by
  induction d with
  | nil => simp [alGet] at hget
  | cons p t ih =>
    obtain ⟨k1, v1⟩ := p
    by_cases h : k1 = k
    · subst h
      unfold alGet at hget
      rw [if_pos rfl] at hget
      have : l = v1 := by injection hget with h2; exact h2.symm
      subst this
      unfold alSet
      rw [if_pos rfl]
      simp [hc]
    · unfold alGet at hget
      rw [if_neg h] at hget
      unfold alSet
      rw [if_neg h]
      simp only [List.map_cons]
      rw [ih hget]

theorem withLight_eq {c c2 : Controller} {lid : String}
    {f : TrafficLight → TrafficLight} (h : withLight c lid f = some c2) :
    ∃ l, alGet c.traffic_lights lid = some l ∧
      c2 = { c with traffic_lights := alSet c.traffic_lights lid (f l) } := by
  unfold withLight at h
  cases hg : alGet c.traffic_lights lid with
  | none => rw [hg] at h; simp at h
  | some l =>
    rw [hg] at h
    exact ⟨l, rfl, (Option.some_injective _ h).symm⟩

theorem withLight_isSome {c : Controller} {lid : String}
    {f : TrafficLight → TrafficLight}
    (h : (alGet c.traffic_lights lid).isSome) : (withLight c lid f).isSome := by
  unfold withLight
  cases hg : alGet c.traffic_lights lid with
  | none => rw [hg] at h; simp at h
  | some l => simp

/-- Equality of every controller field except `traffic_lights`. -/
def EqExceptLights (c c2 : Controller) : Prop :=
  c2.intersections = c.intersections ∧
  c2.active_phase = c.active_phase ∧
  c2.phase_start_time = c.phase_start_time ∧
  c2.adaptive_mode = c.adaptive_mode ∧
  c2.last_traffic_data = c.last_traffic_data ∧
  c2.pedestrian_phase_active = c.pedestrian_phase_active ∧
  c2.last_pedestrian_data = c.last_pedestrian_data ∧
  c2.pedestrian_phase_complete = c.pedestrian_phase_complete ∧
  c2.adaptive_mode_changed = c.adaptive_mode_changed ∧
  c2.last_adaptive_mode = c.last_adaptive_mode ∧
  c2.emergency_active = c.emergency_active ∧
  c2.emergency_vehicle_zone = c.emergency_vehicle_zone ∧
  c2.emergency_start_time = c.emergency_start_time ∧
  c2.emergency_buffer_active = c.emergency_buffer_active ∧
  c2.accident_detected = c.accident_detected ∧
  c2.accident_zones = c.accident_zones

theorem eqExceptLights_rfl (c : Controller) : EqExceptLights c c :=
  ⟨rfl, rfl, rfl, rfl, rfl, rfl, rfl, rfl, rfl, rfl, rfl, rfl, rfl, rfl, rfl, rfl⟩

theorem eqExceptLights_set (c : Controller)
    (lts : List (String × TrafficLight)) :
    EqExceptLights c { c with traffic_lights := lts } :=
  ⟨rfl, rfl, rfl, rfl, rfl, rfl, rfl, rfl, rfl, rfl, rfl, rfl, rfl, rfl, rfl, rfl⟩

theorem eqExceptLights_trans {a b c : Controller}
    (h1 : EqExceptLights a b) (h2 : EqExceptLights b c) : EqExceptLights a c := by
  obtain ⟨e1, e2, e3, e4, e5, e6, e7, e8, e9, e10, e11, e12, e13, e14, e15, e16⟩ := h1
  obtain ⟨f1, f2, f3, f4, f5, f6, f7, f8, f9, f10, f11, f12, f13, f14, f15, f16⟩ := h2
  exact ⟨f1.trans e1, f2.trans e2, f3.trans e3, f4.trans e4, f5.trans e5,
         f6.trans e6, f7.trans e7, f8.trans e8, f9.trans e9, f10.trans e10,
         f11.trans e11, f12.trans e12, f13.trans e13, f14.trans e14,
         f15.trans e15, f16.trans e16⟩

/-- A fold of `withLight` steps with a uniform rewrite `f` (the RED loop of
`create_intersection`, the PEDESTRIAN loop of `update_all_lights`)
succeeds on known ids, touches only `traffic_lights`, rewrites exactly the
listed ids and leaves every other key unchanged. -/
theorem foldlM_withLight (f : TrafficLight → TrafficLight) (tids : List String) :
    ∀ c : Controller, (∀ t ∈ tids, (alGet c.traffic_lights t).isSome) →
    ∃ c2, tids.foldlM (fun c tid => withLight c tid f) c = some c2 ∧
      EqExceptLights c c2 ∧
      (∀ k, k ∉ tids → alGet c2.traffic_lights k = alGet c.traffic_lights k) ∧
      (tids.Nodup →
        ∀ t ∈ tids, alGet c2.traffic_lights t = (alGet c.traffic_lights t).map f) ∧
      ((∀ l, (f l).config = l.config) →
        c2.traffic_lights.map (fun p => (p.1, p.2.config))
          = c.traffic_lights.map (fun p => (p.1, p.2.config))) := by
  induction tids with
  | nil =>
    intro c _
    exact ⟨c, rfl, eqExceptLights_rfl c, fun k _ => rfl,
           by intro _ t htm; simp at htm, fun _ => rfl⟩
  | cons t rest ih =>
    intro c hall
    have ht : (alGet c.traffic_lights t).isSome := hall t (by simp)
    obtain ⟨l, hl⟩ := Option.isSome_iff_exists.mp ht
    set c1 : Controller :=
      { c with traffic_lights := alSet c.traffic_lights t (f l) } with hc1
    have hstep : withLight c t f = some c1 := by
      unfold withLight
      rw [hl]
      rfl
    have hall1 : ∀ u ∈ rest, (alGet c1.traffic_lights u).isSome := by
      intro u hu
      show (alGet (alSet c.traffic_lights t (f l)) u).isSome
      rw [alGet_alSet]
      by_cases h : t = u
      · simp [h]
      · simp only [if_neg h]
        exact hall u (by simp [hu])
    obtain ⟨c2, hfold, hsame, hout, hin, hcfg⟩ := ih c1 hall1
    refine ⟨c2, ?_, ?_, ?_, ?_, ?_⟩
    · simpa [List.foldlM_cons, hstep] using hfold
    · exact eqExceptLights_trans (eqExceptLights_set c _) hsame
    · intro k hk
      simp only [List.mem_cons, not_or] at hk
      rw [hout k hk.2]
      show alGet (alSet c.traffic_lights t (f l)) k = alGet c.traffic_lights k
      rw [alGet_alSet, if_neg (fun he => hk.1 he.symm)]
    · intro hnd u hu
      simp only [List.nodup_cons] at hnd
      rcases List.mem_cons.mp hu with h | h
      · subst h
        rw [hout u hnd.1]
        show alGet (alSet c.traffic_lights u (f l)) u = _
        rw [alGet_alSet, if_pos rfl, hl]
        rfl
      · rw [hin hnd.2 u h]
        have hne : t ≠ u := fun he => hnd.1 (he ▸ h)
        show (alGet (alSet c.traffic_lights t (f l)) u).map f = _
        rw [alGet_alSet, if_neg hne]
    · intro hf
      rw [hcfg hf]
      show (alSet c.traffic_lights t (f l)).map _ = _
      exact configMap_alSet c.traffic_lights t (f l) l hl (hf l)

theorem foldl_add_snd (l : List (String × ℤ)) :
    ∀ a : ℤ, l.foldl (fun acc p => acc + p.2) a = a + (l.map Prod.snd).sum := by
  induction l with
  | nil => simp
  | cons p t ih => intro a; simp [ih, add_assoc]


/-! ### Bridge between the computable fractions `Q` and exact rationals -/

theorem Q.toRat_ofInt (n : ℤ) : (Q.ofInt n).toRat = (n : ℚ) := by
  simp [Q.ofInt, Q.toRat]

theorem Q.wf_ofInt (n : ℤ) : (Q.ofInt n).WF := Int.zero_lt_one

theorem Q.wf_add {a b : Q} (ha : a.WF) (hb : b.WF) : (Q.add a b).WF :=
  mul_pos ha hb

theorem Q.wf_sub {a b : Q} (ha : a.WF) (hb : b.WF) : (Q.sub a b).WF :=
  mul_pos ha hb

theorem Q.wf_mul {a b : Q} (ha : a.WF) (hb : b.WF) : (Q.mul a b).WF :=
  mul_pos ha hb

theorem Q.wf_div {a b : Q} (ha : a.WF) (hn : 0 < b.num) : (Q.div a b).WF := by
  unfold Q.div Q.WF
  rw [if_neg (not_lt.mpr hn.le)]
  exact mul_pos ha hn

theorem Q.toRat_add {a b : Q} (ha : a.WF) (hb : b.WF) :
    (Q.add a b).toRat = a.toRat + b.toRat := by
  have ha1 : ((a.den : ℚ)) ≠ 0 := by exact_mod_cast ha.ne'
  have hb1 : ((b.den : ℚ)) ≠ 0 := by exact_mod_cast hb.ne'
  unfold Q.toRat Q.add
  push_cast
  field_simp
  try ring

theorem Q.toRat_sub {a b : Q} (ha : a.WF) (hb : b.WF) :
    (Q.sub a b).toRat = a.toRat - b.toRat := by
  have ha1 : ((a.den : ℚ)) ≠ 0 := by exact_mod_cast ha.ne'
  have hb1 : ((b.den : ℚ)) ≠ 0 := by exact_mod_cast hb.ne'
  unfold Q.toRat Q.sub
  push_cast
  field_simp
  try ring

theorem Q.toRat_mul (a b : Q) : (Q.mul a b).toRat = a.toRat * b.toRat := by
  unfold Q.toRat Q.mul
  push_cast
  rw [div_mul_div_comm]

theorem Q.toRat_div {a b : Q} (ha : a.WF) (hb : b.WF) (hn : 0 < b.num) :
    (Q.div a b).toRat = a.toRat / b.toRat := by
  have ha1 : ((a.den : ℚ)) ≠ 0 := by exact_mod_cast ha.ne'
  have hb1 : ((b.den : ℚ)) ≠ 0 := by exact_mod_cast hb.ne'
  have hn1 : ((b.num : ℚ)) ≠ 0 := by exact_mod_cast hn.ne'
  unfold Q.toRat Q.div
  rw [if_neg (not_lt.mpr hn.le)]
  push_cast
  field_simp
  try ring

theorem Q.le_iff {a b : Q} (ha : a.WF) (hb : b.WF) :
    Q.le a b = true ↔ a.toRat ≤ b.toRat := by
  have ha1 : (0 : ℚ) < (a.den : ℚ) := by exact_mod_cast ha
  have hb1 : (0 : ℚ) < (b.den : ℚ) := by exact_mod_cast hb
  unfold Q.le Q.toRat
  rw [decide_eq_true_eq, div_le_div_iff ha1 hb1]
  constructor
  · intro h; exact_mod_cast h
  · intro h; exact_mod_cast h

theorem Q.pyInt_toRat {q : Q} (h : q.WF) : pyInt q = ratTrunc q.toRat := by
  have hdn : ((q.den.toNat : ℤ)) = q.den := Int.toNat_of_nonneg h.le
  have hdq : ((q.den.toNat : ℕ) : ℚ) = (q.den : ℚ) := by exact_mod_cast hdn
  have hdpos : (0 : ℚ) < (q.den : ℚ) := by exact_mod_cast h
  unfold pyInt ratTrunc Q.toRat
  by_cases hn : 0 ≤ q.num
  · have hpos : (0 : ℚ) ≤ (q.num : ℚ) / (q.den : ℚ) :=
      div_nonneg (by exact_mod_cast hn) hdpos.le
    rw [if_pos hn, if_pos hpos, ← hdq, Rat.floor_intCast_div_natCast, hdn]
  · have hneg : (q.num : ℚ) / (q.den : ℚ) < 0 :=
      div_neg_of_neg_of_pos (by exact_mod_cast not_le.mp hn) hdpos
    rw [if_neg hn, if_neg (not_le.mpr hneg), ← neg_div]
    have : ((-q.num : ℤ) : ℚ) = -(q.num : ℚ) := by push_cast; ring
    rw [← this, ← hdq, Rat.floor_intCast_div_natCast, hdn]

/-- The four fixed vehicle weights are well formed. -/
theorem Q.wf_vehicleWeight (s : String) : (vehicleWeight s).WF := by
  show Q.WF
    (if pyLower s = "car" then ⟨1, 1⟩
     else if pyLower s = "truck" then ⟨2, 1⟩
     else if pyLower s = "bus" then ⟨2, 1⟩
     else if pyLower s = "motorcycle" then ⟨1, 2⟩
     else if pyLower s = "bicycle" then ⟨3, 10⟩
     else ⟨1, 1⟩)
  split_ifs <;> norm_num [Q.WF]

theorem Q.wf_weightedSum (zd : List (String × ℤ)) : (weightedSum zd).WF := by
  unfold weightedSum
  suffices h : ∀ a : Q, a.WF →
      (zd.foldl (fun acc p => Q.add acc (Q.mul (Q.ofInt p.2) (vehicleWeight p.1))) a).WF by
    exact h (Q.ofInt 0) (Q.wf_ofInt 0)
  induction zd with
  | nil => intro a ha; exact ha
  | cons p t ih =>
    intro a ha
    exact ih _ (Q.wf_add ha (Q.wf_mul (Q.wf_ofInt p.2) (Q.wf_vehicleWeight p.1)))

/-- The exact-rational weighted vehicle sum: the meaning of the Python
float accumulation in `calculate_adaptive_timing`. -/
def ratWeightedSum (zd : List (String × ℤ)) : ℚ :=
  (zd.map fun p => (p.2 : ℚ) * (vehicleWeight p.1).toRat).sum

theorem Q.toRat_weightedSum (zd : List (String × ℤ)) :
    (weightedSum zd).toRat = ratWeightedSum zd := by
  unfold weightedSum ratWeightedSum
  suffices h : ∀ a : Q, a.WF →
      (zd.foldl (fun acc p => Q.add acc (Q.mul (Q.ofInt p.2) (vehicleWeight p.1))) a).toRat
        = a.toRat + (zd.map fun p => (p.2 : ℚ) * (vehicleWeight p.1).toRat).sum by
    rw [h (Q.ofInt 0) (Q.wf_ofInt 0), Q.toRat_ofInt]
    norm_num
  induction zd with
  | nil => intro a _; simp
  | cons p t ih =>
    intro a ha
    have hstep := ih _ (Q.wf_add ha (Q.wf_mul (Q.wf_ofInt p.2) (Q.wf_vehicleWeight p.1)))
    simp only [List.foldl_cons, List.map_cons, List.sum_cons] at hstep ⊢
    rw [hstep, Q.toRat_add ha (Q.wf_mul (Q.wf_ofInt p.2) (Q.wf_vehicleWeight p.1)),
      Q.toRat_mul, Q.toRat_ofInt]
    ring

/-- Well-formedness of the linear-interpolation expression
`lo + (w − a) / d · (hi − lo)`. -/
theorem Q.wf_interp (w : Q) (hw : w.WF) (lo hi a d : ℤ) (hd : 0 < d) :
    (Q.add (Q.ofInt lo)
      (Q.mul (Q.div (Q.sub w (Q.ofInt a)) (Q.ofInt d))
        (Q.sub (Q.ofInt hi) (Q.ofInt lo)))).WF :=
  Q.wf_add (Q.wf_ofInt lo)
    (Q.wf_mul
      (Q.wf_div (Q.wf_sub hw (Q.wf_ofInt a)) hd)
      (Q.wf_sub (Q.wf_ofInt hi) (Q.wf_ofInt lo)))

/-- The linear-interpolation expression denotes the exact rational
`lo + (w − a) / d · (hi − lo)`. -/
theorem Q.toRat_interp (w : Q) (hw : w.WF) (lo hi a d : ℤ) (hd : 0 < d) :
    (Q.add (Q.ofInt lo)
      (Q.mul (Q.div (Q.sub w (Q.ofInt a)) (Q.ofInt d))
        (Q.sub (Q.ofInt hi) (Q.ofInt lo)))).toRat
      = (lo : ℚ) + (w.toRat - (a : ℚ)) / (d : ℚ) * ((hi : ℚ) - (lo : ℚ)) := by
  rw [Q.toRat_add (Q.wf_ofInt lo)
      (Q.wf_mul (Q.wf_div (Q.wf_sub hw (Q.wf_ofInt a)) hd)
        (Q.wf_sub (Q.wf_ofInt hi) (Q.wf_ofInt lo))),
    Q.toRat_mul,
    Q.toRat_div (Q.wf_sub hw (Q.wf_ofInt a)) (Q.wf_ofInt d) hd,
    Q.toRat_sub hw (Q.wf_ofInt a),
    Q.toRat_sub (Q.wf_ofInt hi) (Q.wf_ofInt lo),
    Q.toRat_ofInt, Q.toRat_ofInt, Q.toRat_ofInt, Q.toRat_ofInt]

/-! ### Concrete fixtures used by counterexamples and witnesses -/

/-- A light config with the source defaults (min 16, max 60, yellow 3,
pedestrian 10..30, buffer 5). -/
def cfgA : TrafficLightConfig := { id := "A", name := "North", zone_id := "za" }

/-- A second default-valued light config. -/
def cfgB : TrafficLightConfig := { id := "B", name := "South", zone_id := "zb" }

/-- Controller with light `A` and vehicle data of weighted sum 10 for its
zone (8 cars + 4 motorcycles). -/
def c5state : Controller :=
  update_traffic_data (add_traffic_light initController cfgA (Q.ofInt 0))
    [("za", [("car", 8), ("motorcycle", 4)])] none

/-- Controller with a two-light intersection and 8 pedestrians spread over
two zones. -/
def c6state : Controller :=
  let c := add_traffic_light (add_traffic_light initController cfgA (Q.ofInt 0))
    cfgB (Q.ofInt 0)
  match create_intersection c "I" ["A", "B"] (Q.ofInt 0) with
  | some c2 => update_traffic_data c2 [] (some [("pza", 4), ("pzb", 4)])
  | none => c

/-! ### C5 — adaptive green duration -/

/-- **C5**: `calculate_adaptive_timing` returns `max_green_time` whenever
adaptive mode is off; with adaptive mode on it returns `min_green_time`
when the light's zone has no traffic data, and otherwise clamps or
linearly interpolates (truncating toward zero) the weighted vehicle sum,
whose weights are car 1, truck/bus 2, motorcycle 0.5, bicycle 0.3 and 1
for anything else (after lower-casing); for min 16 / max 60 a weighted
sum of 10 yields 35. -/
theorem claim_C5 (c : Controller) (iid lid : String) (light : TrafficLight)
    (hl : alGet c.traffic_lights lid = some light) :
    (c.adaptive_mode = false →
       calculate_adaptive_timing c iid lid = some light.config.max_green_time)
  ∧ (c.adaptive_mode = true →
     alGet c.last_traffic_data light.config.zone_id = none →
       calculate_adaptive_timing c iid lid = some light.config.min_green_time)
  ∧ (∀ zone_data, c.adaptive_mode = true →
     alGet c.last_traffic_data light.config.zone_id = some zone_data →
       calculate_adaptive_timing c iid lid = some (
         if ratWeightedSum zone_data ≤ 2 then light.config.min_green_time
         else if 20 ≤ ratWeightedSum zone_data then light.config.max_green_time
         else ratTrunc ((light.config.min_green_time : ℚ) +
                (ratWeightedSum zone_data - 2) / 18 *
                ((light.config.max_green_time : ℚ) -
                  (light.config.min_green_time : ℚ)))))
  ∧ (vehicleWeight "car").toRat = 1 ∧ (vehicleWeight "truck").toRat = 2
  ∧ (vehicleWeight "bus").toRat = 2 ∧ (vehicleWeight "motorcycle").toRat = 1/2
  ∧ (vehicleWeight "bicycle").toRat = 3/10
  ∧ (∀ s : String, pyLower s ≠ "car" → pyLower s ≠ "truck" →
      pyLower s ≠ "bus" → pyLower s ≠ "motorcycle" → pyLower s ≠ "bicycle" →
      (vehicleWeight s).toRat = 1)
  ∧ (light.config.min_green_time = 16 → light.config.max_green_time = 60 →
     c.adaptive_mode = true →
     ∀ zone_data, alGet c.last_traffic_data light.config.zone_id = some zone_data →
       ratWeightedSum zone_data = 10 →
       calculate_adaptive_timing c iid lid = some 35) := by
  have key : ∀ zone_data, c.adaptive_mode = true →
      alGet c.last_traffic_data light.config.zone_id = some zone_data →
      calculate_adaptive_timing c iid lid = some (
        if ratWeightedSum zone_data ≤ 2 then light.config.min_green_time
        else if 20 ≤ ratWeightedSum zone_data then light.config.max_green_time
        else ratTrunc ((light.config.min_green_time : ℚ) +
               (ratWeightedSum zone_data - 2) / 18 *
               ((light.config.max_green_time : ℚ) -
                 (light.config.min_green_time : ℚ)))) := by
    intro zd hm hz
    have hwf := Q.wf_weightedSum zd
    have hws := Q.toRat_weightedSum zd
    have h2 : Q.le (weightedSum zd) (Q.ofInt 2) = true ↔ ratWeightedSum zd ≤ 2 := by
      rw [Q.le_iff hwf (Q.wf_ofInt 2), hws, Q.toRat_ofInt]
      norm_num
    have h20 : Q.le (Q.ofInt 20) (weightedSum zd) = true ↔ 20 ≤ ratWeightedSum zd := by
      rw [Q.le_iff (Q.wf_ofInt 20) hwf, hws, Q.toRat_ofInt]
      norm_num
    unfold calculate_adaptive_timing
    rw [if_neg (by simp [hm]), hl]
    simp only [Option.map_some', hz]
    by_cases hc2 : ratWeightedSum zd ≤ 2
    · rw [if_pos (h2.mpr hc2), if_pos hc2]
    · rw [if_neg fun h => hc2 (h2.mp h), if_neg hc2]
      by_cases hc20 : 20 ≤ ratWeightedSum zd
      · rw [if_pos (h20.mpr hc20), if_pos hc20]
      · rw [if_neg fun h => hc20 (h20.mp h), if_neg hc20,
          Q.pyInt_toRat (Q.wf_interp _ hwf _ _ 2 18 (by norm_num)),
          Q.toRat_interp _ hwf _ _ 2 18 (by norm_num), hws]
        norm_num
  refine ⟨?_, ?_, key, ?_, ?_, ?_, ?_, ?_, ?_, ?_⟩
  · intro hm
    unfold calculate_adaptive_timing
    simp [hm, hl]
  · intro hm hz
    unfold calculate_adaptive_timing
    simp [hm, hl, hz]
  · rw [show vehicleWeight "car" = ⟨1, 1⟩ from by decide]
    norm_num [Q.toRat]
  · rw [show vehicleWeight "truck" = ⟨2, 1⟩ from by decide]
    norm_num [Q.toRat]
  · rw [show vehicleWeight "bus" = ⟨2, 1⟩ from by decide]
    norm_num [Q.toRat]
  · rw [show vehicleWeight "motorcycle" = ⟨1, 2⟩ from by decide]
    norm_num [Q.toRat]
  · rw [show vehicleWeight "bicycle" = ⟨3, 10⟩ from by decide]
    norm_num [Q.toRat]
  · intro s h1 h2 h3 h4 h5
    have : vehicleWeight s = ⟨1, 1⟩ := by
      show (if pyLower s = "car" then (⟨1, 1⟩ : Q)
        else if pyLower s = "truck" then ⟨2, 1⟩
        else if pyLower s = "bus" then ⟨2, 1⟩
        else if pyLower s = "motorcycle" then ⟨1, 2⟩
        else if pyLower s = "bicycle" then ⟨3, 10⟩
        else ⟨1, 1⟩) = ⟨1, 1⟩
      rw [if_neg h1, if_neg h2, if_neg h3, if_neg h4, if_neg h5]
    rw [this]
    norm_num [Q.toRat]
  · intro hmin hmax hm zd hz hws
    rw [key zd hm hz, hws, hmin, hmax]
    norm_num [ratTrunc]

/-- Witness for C5 at a concrete reachable controller: light `A` has
defaults 16/60 and its zone holds 8 cars and 4 motorcycles (weighted sum
10), so the adaptive duration is 35. -/
theorem claim_C5_witness : calculate_adaptive_timing c5state "I" "A" = some 35 := by
  obtain ⟨-, -, -, -, -, -, -, -, -, hex⟩ :=
    claim_C5 c5state "I" "A" (mkTrafficLight cfgA (Q.ofInt 0)) (by decide)
  refine hex (by decide) (by decide) (by decide)
    [("car", 8), ("motorcycle", 4)] (by decide) ?_
  simp only [ratWeightedSum, List.map_cons, List.map_nil, List.sum_cons,
    List.sum_nil, show vehicleWeight "car" = ⟨1, 1⟩ from by decide,
    show vehicleWeight "motorcycle" = ⟨1, 2⟩ from by decide]
  norm_num [Q.toRat]

/-! ### C6 — adaptive pedestrian duration -/

/-- **C6**: `calculate_pedestrian_timing` returns the first member light's
`pedestrian_max_time` whenever adaptive mode is off; with adaptive mode
on it sums the pedestrian counts of every zone of the last pedestrian
data system-wide (not only this intersection's zones) and clamps or
linearly interpolates (truncating toward zero) that total over `[2, 15]`
using the first member light's min/max. -/
theorem claim_C6 (c : Controller) (iid : String) (ids : List String)
    (sid : String) (light : TrafficLight)
    (hi : alGet c.intersections iid = some ids)
    (hh : ids.head? = some sid)
    (hl : alGet c.traffic_lights sid = some light) :
    (c.adaptive_mode = false →
       calculate_pedestrian_timing c iid = some light.config.pedestrian_max_time)
  ∧ (c.adaptive_mode = true →
       calculate_pedestrian_timing c iid = some (
         if ((c.last_pedestrian_data.map Prod.snd).sum : ℤ) ≤ 2 then
           light.config.pedestrian_min_time
         else if 15 ≤ ((c.last_pedestrian_data.map Prod.snd).sum : ℤ) then
           light.config.pedestrian_max_time
         else ratTrunc ((light.config.pedestrian_min_time : ℚ) +
                (((c.last_pedestrian_data.map Prod.snd).sum : ℚ) - 2) / 13 *
                ((light.config.pedestrian_max_time : ℚ) -
                  (light.config.pedestrian_min_time : ℚ))))) := by
  constructor
  · intro hm
    unfold calculate_pedestrian_timing
    simp [hm, hi, hh, hl]
  · intro hm
    have htot : c.last_pedestrian_data.foldl (fun acc p => acc + p.2) 0
        = (c.last_pedestrian_data.map Prod.snd).sum := by
      rw [foldl_add_snd]
      norm_num
    unfold calculate_pedestrian_timing
    rw [if_neg (by simp [hm]), hi]
    simp only [Option.some_bind, hh, hl, Option.map_some', htot, ge_iff_le]
    by_cases hc2 : (c.last_pedestrian_data.map Prod.snd).sum ≤ 2
    · rw [if_pos hc2, if_pos hc2]
    · rw [if_neg hc2, if_neg hc2]
      by_cases hc15 : 15 ≤ (c.last_pedestrian_data.map Prod.snd).sum
      · rw [if_pos hc15, if_pos hc15]
      · rw [if_neg hc15, if_neg hc15,
          Q.pyInt_toRat (Q.wf_interp _ (Q.wf_ofInt _) _ _ 2 13 (by norm_num)),
          Q.toRat_interp _ (Q.wf_ofInt _) _ _ 2 13 (by norm_num), Q.toRat_ofInt]
        norm_num

/-- Witness for C6 at a concrete reachable controller: a two-light
intersection with defaults 10/30 and 8 pedestrians system-wide, giving
`int(10 + (6/13)·20) = 19`. -/
theorem claim_C6_witness : calculate_pedestrian_timing c6state "I" = some 19 := by
  obtain ⟨-, hon⟩ := claim_C6 c6state "I" ["A", "B"] "A"
    ((mkTrafficLight cfgA (Q.ofInt 0)).set_state GREEN none (Q.ofInt 0))
    (by decide) (by decide) (by decide)
  have hsum : (c6state.last_pedestrian_data.map Prod.snd).sum = 8 := by decide
  have hpmin : ((mkTrafficLight cfgA (Q.ofInt 0)).set_state GREEN none
      (Q.ofInt 0)).config.pedestrian_min_time = 10 := by decide
  have hpmax : ((mkTrafficLight cfgA (Q.ofInt 0)).set_state GREEN none
      (Q.ofInt 0)).config.pedestrian_max_time = 30 := by decide
  rw [hon (by decide), hsum, hpmin, hpmax]
  norm_num [ratTrunc]

/-! ### C10 — clearing global accident mode needs no zone id -/

/-- **C10**: when `accident_detected` is set and `accident_zones` is empty,
`report_accident(False, None)` clears `accident_detected` and returns
`True`; on any falling edge a supplied `zone_id` is only removed from
`accident_zones` before the emptiness test. -/
theorem claim_C10 (c : Controller) (now : Q)
    (h1 : c.accident_detected = true) (h2 : c.accident_zones = []) :
    report_accident c false none now = ({ c with accident_detected := false }, true)
  ∧ (∀ (c2 : Controller) (z : String) (now2 : Q),
      (report_accident c2 false (some z) now2).1.accident_zones
        = c2.accident_zones.filter (· ≠ z)) := by
  constructor
  · unfold report_accident
    simp [h1, h2]
  · intro c2 z now2
    unfold report_accident
    simp only [Bool.false_eq_true, if_false]
    split_ifs <;> rfl

/-- Witness for C10: a controller put into accident mode with no zone id is
cleared again by `report_accident(False, None)`. -/
theorem claim_C10_witness :
    (report_accident
      (report_accident (add_traffic_light initController cfgA (Q.ofInt 0))
        true none (Q.ofInt 1)).1
      false none (Q.ofInt 2)).2 = true := by
  have h := claim_C10
    (report_accident (add_traffic_light initController cfgA (Q.ofInt 0))
      true none (Q.ofInt 1)).1
    (Q.ofInt 2) (by decide) (by decide)
  rw [h.1]

/-! ### Characterisation of create_intersection and accident response -/

theorem set_state_red_state (l : TrafficLight) (now : Q) :
    (l.set_state RED none now).state = RED := rfl

theorem handle_accident_all_red (c : Controller) (now : Q) :
    ∀ p ∈ (handle_accident_response c now).traffic_lights, p.2.state = RED := by
  intro p hp
  unfold handle_accident_response at hp
  simp only [List.mem_map] at hp
  obtain ⟨q, hq, rfl⟩ := hp
  rfl

/-- What `create_intersection` does when at least one id is valid: the
first valid light goes `GREEN` with `current_duration = 0` (the
`set_state` call passes no duration), the remaining valid lights go
`RED`, the member list, active phase and pedestrian flags are recorded,
and nothing else changes. -/
theorem create_intersection_spec (c : Controller) (iid : String)
    (ids : List String) (now : Q) (first : String) (rest : List String)
    (hfilter : ids.filter (fun tid => alHas c.traffic_lights tid) = first :: rest)
    (hnd : (first :: rest).Nodup) :
    ∃ c2, create_intersection c iid ids now = some c2 ∧
      (alGet c2.traffic_lights first).map (fun l => (l.state, l.current_duration))
        = some (GREEN, 0) ∧
      (∀ t ∈ rest, (alGet c2.traffic_lights t).map (fun l => l.state) = some RED) ∧
      alGet c2.intersections iid = some (first :: rest) ∧
      alGet c2.active_phase iid = some first ∧
      alGetD c2.pedestrian_phase_active iid true = false ∧
      alGetD c2.pedestrian_phase_complete iid true = false ∧
      (∀ k, k ∉ first :: rest → alGet c2.traffic_lights k = alGet c.traffic_lights k) ∧
      c2.accident_detected = c.accident_detected ∧
      c2.emergency_active = c.emergency_active ∧
      c2.emergency_buffer_active = c.emergency_buffer_active ∧
      c2.intersections = alSet c.intersections iid (first :: rest) ∧
      (∀ k, alHas c2.traffic_lights k = alHas c.traffic_lights k) ∧
      c2.traffic_lights.map (fun p => (p.1, p.2.config))
        = c.traffic_lights.map (fun p => (p.1, p.2.config)) := by
  have hmemfirst : first ∈ ids.filter (fun tid => alHas c.traffic_lights tid) := by
    rw [hfilter]; exact List.mem_cons_self first rest
  have hhasfirst : (alGet c.traffic_lights first).isSome :=
    (List.of_mem_filter hmemfirst : alHas c.traffic_lights first)
  obtain ⟨l, hl⟩ := Option.isSome_iff_exists.mp hhasfirst
  set cmid : Controller := { c with
    intersections := alSet c.intersections iid (first :: rest),
    active_phase := alSet c.active_phase iid first,
    phase_start_time := alSet c.phase_start_time iid now } with hcmid
  set cA : Controller := { cmid with
    traffic_lights :=
      alSet c.traffic_lights first (l.set_state GREEN none now) } with hcA
  set cB : Controller := { cA with
    pedestrian_phase_active := alSet cA.pedestrian_phase_active iid false,
    pedestrian_phase_complete :=
      alSet cA.pedestrian_phase_complete iid false } with hcB
  have hw : withLight cmid first (fun l => l.set_state GREEN none now) = some cA := by
    unfold withLight
    rw [show alGet cmid.traffic_lights first = some l from hl]
    rfl
  have hrun : create_intersection c iid ids now
      = rest.foldlM (redStep now) cB := by
    unfold create_intersection
    rw [hfilter]
    show (withLight cmid first (fun l => l.set_state GREEN none now)).bind _ = _
    rw [hw]
    rfl
  have hIn : ∀ t ∈ rest, (alGet cB.traffic_lights t).isSome := by
    intro t ht
    show (alGet (alSet c.traffic_lights first (l.set_state GREEN none now)) t).isSome
    rw [alGet_alSet]
    by_cases hft : first = t
    · simp [hft]
    · rw [if_neg hft]
      have hmem : t ∈ ids.filter (fun tid => alHas c.traffic_lights tid) := by
        rw [hfilter]; exact List.mem_cons_of_mem first ht
      have hmt : alHas c.traffic_lights t := List.of_mem_filter hmem
      exact hmt
  have hexp : redStep now = fun c tid => withLight c tid
      (fun l => l.set_state RED none now) := rfl
  obtain ⟨cF, hfold, hsame, hout, hin, hcfg⟩ :=
    foldlM_withLight (fun l => l.set_state RED none now) rest cB hIn
  obtain ⟨e1, e2, e3, e4, e5, e6, e7, e8, e9, e10, e11, e12, e13, e14, e15, e16⟩ :=
    hsame
  simp only [List.nodup_cons] at hnd
  refine ⟨cF, ?_, ?_, ?_, ?_, ?_, ?_, ?_, ?_, ?_, ?_, ?_, ?_, ?_, ?_⟩
  · rw [hrun, hexp, hfold]
  · rw [hout first hnd.1]
    show (alGet (alSet c.traffic_lights first (l.set_state GREEN none now))
      first).map _ = _
    rw [alGet_alSet, if_pos rfl]
    rfl
  · intro t ht
    rw [hin hnd.2 t ht]
    have hft : first ≠ t := fun he => hnd.1 (he ▸ ht)
    show ((alGet (alSet c.traffic_lights first (l.set_state GREEN none now))
      t).map _).map _ = _
    rw [alGet_alSet, if_neg hft]
    have hmem : t ∈ ids.filter (fun tid => alHas c.traffic_lights tid) := by
      rw [hfilter]; exact List.mem_cons_of_mem first ht
    have hmt : alHas c.traffic_lights t := List.of_mem_filter hmem
    obtain ⟨lt, hlt⟩ := Option.isSome_iff_exists.mp hmt
    rw [hlt]
    rfl
  · rw [e1]
    show alGet (alSet c.intersections iid (first :: rest)) iid = _
    rw [alGet_alSet, if_pos rfl]
  · rw [e2]
    show alGet (alSet c.active_phase iid first) iid = _
    rw [alGet_alSet, if_pos rfl]
  · rw [show cF.pedestrian_phase_active = cB.pedestrian_phase_active from e6]
    show alGetD (alSet cA.pedestrian_phase_active iid false) iid true = false
    rw [alGetD_alSet, if_pos rfl]
  · rw [show cF.pedestrian_phase_complete = cB.pedestrian_phase_complete from e8]
    show alGetD (alSet cA.pedestrian_phase_complete iid false) iid true = false
    rw [alGetD_alSet, if_pos rfl]
  · intro k hk
    simp only [List.mem_cons, not_or] at hk
    rw [hout k hk.2]
    show alGet (alSet c.traffic_lights first (l.set_state GREEN none now)) k = _
    rw [alGet_alSet, if_neg (fun he => hk.1 he.symm)]
  · rw [show cF.accident_detected = cB.accident_detected from e15]
  · rw [show cF.emergency_active = cB.emergency_active from e11]
  · rw [show cF.emergency_buffer_active = cB.emergency_buffer_active from e14]
  · exact e1
  · intro k
    unfold alHas
    by_cases hk : k ∈ first :: rest
    · rcases List.mem_cons.mp hk with h | h
      · subst h
        rw [hout k hnd.1]
        show (alGet (alSet c.traffic_lights k (l.set_state GREEN none now))
          k).isSome = _
        rw [alGet_alSet, if_pos rfl, hl]
        rfl
      · rw [hin hnd.2 k h, Option.isSome_map']
        have hkf : first ≠ k := fun he => hnd.1 (he ▸ h)
        show (alGet (alSet c.traffic_lights first
          (l.set_state GREEN none now)) k).isSome = _
        rw [alGet_alSet, if_neg hkf]
    · rw [hout k (fun hm => hk (List.mem_cons_of_mem first hm))]
      have hkf : first ≠ k := fun he => hk (he ▸ List.mem_cons_self first rest)
      show (alGet (alSet c.traffic_lights first
        (l.set_state GREEN none now)) k).isSome = _
      rw [alGet_alSet, if_neg hkf]
  · rw [hcfg (fun l => rfl)]
    show (alSet c.traffic_lights first (l.set_state GREEN none now)).map
        (fun p => (p.1, p.2.config))
      = c.traffic_lights.map (fun p => (p.1, p.2.config))
    exact configMap_alSet c.traffic_lights first _ l hl rfl

/-! ### C3 — current_duration bookkeeping -/

/-- The controller obtained by adding light `A` and creating a single-light
intersection at time 0 — a reachable state. -/
def c3state : Controller :=
  match create_intersection (add_traffic_light initController cfgA (Q.ofInt 0))
      "I" ["A"] (Q.ofInt 0) with
  | some c => c
  | none => initController

/-- **C3 counterexample**: in the reachable state right after
`create_intersection`, the first member light is `GREEN` with
`current_duration = 0`, not `min_green_time = 16`, so the claimed GREEN
range `[min_green_time, max_green_time]` and the claimed `= 0 while RED`
both fail (a freshly constructed light is `RED` with
`current_duration = min_green_time = 16`). -/
theorem claim_C3_counterexample :
    create_intersection (add_traffic_light initController cfgA (Q.ofInt 0))
        "I" ["A"] (Q.ofInt 0) = some c3state
  ∧ (alGet c3state.traffic_lights "A").map (fun l => (l.state, l.current_duration))
      = some (GREEN, 0)
  ∧ cfgA.min_green_time = 16
  ∧ ¬ (cfgA.min_green_time ≤ 0)
  ∧ (mkTrafficLight cfgA (Q.ofInt 0)).state = RED
  ∧ (mkTrafficLight cfgA (Q.ofInt 0)).current_duration = 16 := by decide

/-- **C3 amended**: `set_state` clamps an explicit GREEN duration into
`[min_green_time, max_green_time]` and an explicit PEDESTRIAN duration
into `[pedestrian_min_time, pedestrian_max_time]`, forces exactly
`yellow_duration` for YELLOW, and sets 0 for RED — but also sets 0 for a
GREEN or PEDESTRIAN request without an explicit duration; a freshly
constructed light is RED with `current_duration = min_green_time`; and
intersection initialisation sets the first member light GREEN with
duration 0 (not `min_green_time`). -/
theorem claim_C3 :
    (∀ (l : TrafficLight) (d : ℤ) (now : Q),
       (l.set_state GREEN (some d) now).current_duration
         = max l.config.min_green_time (min d l.config.max_green_time))
  ∧ (∀ (l : TrafficLight) (now : Q),
       (l.set_state GREEN none now).current_duration = 0)
  ∧ (∀ (l : TrafficLight) (d : Option ℤ) (now : Q),
       (l.set_state YELLOW d now).current_duration = l.config.yellow_duration)
  ∧ (∀ (l : TrafficLight) (d : ℤ) (now : Q),
       (l.set_state PEDESTRIAN (some d) now).current_duration
         = max l.config.pedestrian_min_time (min d l.config.pedestrian_max_time))
  ∧ (∀ (l : TrafficLight) (now : Q),
       (l.set_state PEDESTRIAN none now).current_duration = 0)
  ∧ (∀ (l : TrafficLight) (d : Option ℤ) (now : Q),
       (l.set_state RED d now).current_duration = 0)
  ∧ (∀ (cfg : TrafficLightConfig) (now : Q),
       (mkTrafficLight cfg now).state = RED ∧
       (mkTrafficLight cfg now).current_duration = cfg.min_green_time)
  ∧ (∀ (c : Controller) (iid : String) (ids : List String) (now : Q)
       (first : String) (rest : List String),
       ids.filter (fun tid => alHas c.traffic_lights tid) = first :: rest →
       (first :: rest).Nodup →
       ∃ c2, create_intersection c iid ids now = some c2 ∧
         (alGet c2.traffic_lights first).map
           (fun l => (l.state, l.current_duration)) = some (GREEN, 0)) := by
  refine ⟨?_, ?_, ?_, ?_, ?_, ?_, ?_, ?_⟩
  · intro l d now; rfl
  · intro l now; rfl
  · intro l d now; cases d <;> rfl
  · intro l d now; rfl
  · intro l now; rfl
  · intro l d now; cases d <;> rfl
  · intro cfg now; exact ⟨rfl, rfl⟩
  · intro c iid ids now first rest hfilter hnd
    obtain ⟨c2, hc2, hfirst, -⟩ :=
      create_intersection_spec c iid ids now first rest hfilter hnd
    exact ⟨c2, hc2, hfirst⟩

/-- Witness for C3 at concrete inputs: the clamping equations at a default
light and the GREEN-with-duration-0 initialisation of `c3state`. -/
theorem claim_C3_witness :
    ((mkTrafficLight cfgA (Q.ofInt 0)).set_state GREEN (some 99)
        (Q.ofInt 1)).current_duration = 60
  ∧ ∃ c2, create_intersection (add_traffic_light initController cfgA (Q.ofInt 0))
        "I" ["A"] (Q.ofInt 0) = some c2 ∧
      (alGet c2.traffic_lights "A").map (fun l => (l.state, l.current_duration))
        = some (GREEN, 0) := by
  constructor
  · rw [(claim_C3).1 (mkTrafficLight cfgA (Q.ofInt 0)) 99 (Q.ofInt 1)]
    decide
  · exact (claim_C3).2.2.2.2.2.2.2
      (add_traffic_light initController cfgA (Q.ofInt 0)) "I" ["A"] (Q.ofInt 0)
      "A" [] (by decide) (by decide)

/-! ### Characterisation of the emergency rising edge -/

/-- The `_set_emergency_priority` loop: the priority light goes GREEN for
its own `max_green_time`, every other listed light goes RED, the active
phase is pointed at the priority light, and no other controller field
changes. -/
theorem sepFold (iid plid : String) (now : Q) (ids : List String) :
    ∀ c : Controller, (∀ t ∈ ids, (alGet c.traffic_lights t).isSome) →
    ids.Nodup →
    ∃ c2, ids.foldlM (sepStep iid plid now) c = some c2 ∧
      (∀ k, k ∉ ids → alGet c2.traffic_lights k = alGet c.traffic_lights k) ∧
      (∀ t ∈ ids, t ≠ plid →
        alGet c2.traffic_lights t
          = (alGet c.traffic_lights t).map (fun l => l.set_state RED none now)) ∧
      (plid ∈ ids →
        alGet c2.traffic_lights plid
          = (alGet c.traffic_lights plid).map
              (fun l => l.set_state GREEN (some l.config.max_green_time) now)) ∧
      (plid ∈ ids → alGet c2.active_phase iid = some plid) ∧
      (plid ∉ ids → c2.active_phase = c.active_phase) ∧
      c2.intersections = c.intersections ∧
      c2.emergency_active = c.emergency_active ∧
      c2.emergency_vehicle_zone = c.emergency_vehicle_zone ∧
      c2.emergency_start_time = c.emergency_start_time ∧
      c2.emergency_buffer_active = c.emergency_buffer_active ∧
      c2.accident_detected = c.accident_detected ∧
      c2.pedestrian_phase_active = c.pedestrian_phase_active ∧
      c2.pedestrian_phase_complete = c.pedestrian_phase_complete := by
  induction ids with
  | nil =>
    intro c _ _
    exact ⟨c, rfl, fun k _ => rfl, by simp, by simp, by simp,
      fun _ => rfl, rfl, rfl, rfl, rfl, rfl, rfl, rfl, rfl⟩
  | cons t rest ih =>
    intro c hall hnd
    simp only [List.nodup_cons] at hnd
    have ht : (alGet c.traffic_lights t).isSome := hall t (by simp)
    obtain ⟨l, hl⟩ := Option.isSome_iff_exists.mp ht
    by_cases hp : t = plid
    · subst hp
      set c1 : Controller := { c with
        traffic_lights := alSet c.traffic_lights t
          (l.set_state GREEN (some l.config.max_green_time) now),
        active_phase := alSet c.active_phase iid t } with hc1
      have hstep : sepStep iid t now c t = some c1 := by
        unfold sepStep withLight
        rw [if_pos rfl, hl]
        rfl
      have hall1 : ∀ u ∈ rest, (alGet c1.traffic_lights u).isSome := by
        intro u hu
        show (alGet (alSet c.traffic_lights t _) u).isSome
        rw [alGet_alSet]
        by_cases h : t = u
        · simp [h]
        · rw [if_neg h]; exact hall u (by simp [hu])
      obtain ⟨c2, hfold, hout, hred, hgrn, hact, hactout, hint, he1, he2, he3,
        he4, hacc, hpa, hpc⟩ := ih c1 hall1 hnd.2
      refine ⟨c2, ?_, ?_, ?_, ?_, ?_, ?_, ?_, ?_, ?_, ?_, ?_, ?_, ?_, ?_⟩
      · simpa [List.foldlM_cons, hstep] using hfold
      · intro k hk
        simp only [List.mem_cons, not_or] at hk
        rw [hout k hk.2]
        show alGet (alSet c.traffic_lights t _) k = _
        rw [alGet_alSet, if_neg (fun he => hk.1 he.symm)]
      · intro u hu hne
        rcases List.mem_cons.mp hu with h | h
        · exact absurd h hne
        · rw [hred u h hne]
          have htu : t ≠ u := fun he => hnd.1 (he ▸ h)
          show (alGet (alSet c.traffic_lights t _) u).map _ = _
          rw [alGet_alSet, if_neg htu]
      · intro _
        rw [hout t hnd.1]
        show alGet (alSet c.traffic_lights t _) t = _
        rw [alGet_alSet, if_pos rfl, hl]
        rfl
      · intro _
        rw [hactout hnd.1]
        show alGet (alSet c.active_phase iid t) iid = _
        rw [alGet_alSet, if_pos rfl]
      · intro hnm
        exact absurd (List.mem_cons_self t rest) hnm
      · exact hint
      · exact he1
      · exact he2
      · exact he3
      · exact he4
      · exact hacc
      · exact hpa
      · exact hpc
    · set c1 : Controller := { c with
        traffic_lights := alSet c.traffic_lights t
          (l.set_state RED none now) } with hc1
      have hstep : sepStep iid plid now c t = some c1 := by
        unfold sepStep withLight
        rw [if_neg hp, hl]
        rfl
      have hall1 : ∀ u ∈ rest, (alGet c1.traffic_lights u).isSome := by
        intro u hu
        show (alGet (alSet c.traffic_lights t _) u).isSome
        rw [alGet_alSet]
        by_cases h : t = u
        · simp [h]
        · rw [if_neg h]; exact hall u (by simp [hu])
      obtain ⟨c2, hfold, hout, hred, hgrn, hact, hactout, hint, he1, he2, he3,
        he4, hacc, hpa, hpc⟩ := ih c1 hall1 hnd.2
      refine ⟨c2, ?_, ?_, ?_, ?_, ?_, ?_, ?_, ?_, ?_, ?_, ?_, ?_, ?_, ?_⟩
      · simpa [List.foldlM_cons, hstep] using hfold
      · intro k hk
        simp only [List.mem_cons, not_or] at hk
        rw [hout k hk.2]
        show alGet (alSet c.traffic_lights t _) k = _
        rw [alGet_alSet, if_neg (fun he => hk.1 he.symm)]
      · intro u hu hne
        rcases List.mem_cons.mp hu with h | h
        · subst h
          rw [hout u hnd.1]
          show alGet (alSet c.traffic_lights u _) u = _
          rw [alGet_alSet, if_pos rfl, hl]
          rfl
        · rw [hred u h hne]
          have htu : t ≠ u := fun he => hnd.1 (he ▸ h)
          show (alGet (alSet c.traffic_lights t _) u).map _ = _
          rw [alGet_alSet, if_neg htu]
      · intro hm
        rcases List.mem_cons.mp hm with h | h
        · exact absurd h.symm hp
        · rw [hgrn h]
          have htp : t ≠ plid := hp
          show (alGet (alSet c.traffic_lights t _) plid).map _ = _
          rw [alGet_alSet, if_neg htp]
      · intro hm
        rcases List.mem_cons.mp hm with h | h
        · exact absurd h.symm hp
        · rw [hact h]
      · intro hnm
        simp only [List.mem_cons, not_or] at hnm
        rw [hactout hnm.2]
      · exact hint
      · exact he1
      · exact he2
      · exact he3
      · exact he4
      · exact hacc
      · exact hpa
      · exact hpc

/-- The rising edge of `report_emergency_vehicle`: resolving the zone to
its first matching light and that light's first containing intersection,
an inactive intersection is put into emergency mode, the matched light is
forced GREEN for its `max_green_time`, every sibling member goes RED, and
the call returns `True`. -/
theorem report_emergency_rising_spec (c : Controller) (zone : String) (now : Q)
    (hz : ¬ zone = "") (lid : String) (light : TrafficLight) (iid : String)
    (ids : List String)
    (hfind : c.traffic_lights.find? (fun p => p.2.config.zone_id = zone)
      = some (lid, light))
    (hfind2 : c.intersections.find? (fun p => lid ∈ p.2) = some (iid, ids))
    (hne : ¬ (iid = "" ∨ lid = ""))
    (hnotact : alGetD c.emergency_active iid false = false)
    (hgetI : alGet c.intersections iid = some ids)
    (hids : ∀ t ∈ ids, (alGet c.traffic_lights t).isSome)
    (hnd : ids.Nodup) :
    ∃ c2, report_emergency_vehicle c zone true now = some (c2, true) ∧
      alGetD c2.emergency_active iid false = true ∧
      alGet c2.emergency_vehicle_zone iid = some zone ∧
      alGet c2.emergency_start_time iid = some now ∧
      alGetD c2.emergency_buffer_active iid true = false ∧
      alGet c2.active_phase iid = some lid ∧
      alGet c2.traffic_lights lid
        = (alGet c.traffic_lights lid).map
            (fun l => l.set_state GREEN (some l.config.max_green_time) now) ∧
      (∀ t ∈ ids, t ≠ lid →
        alGet c2.traffic_lights t
          = (alGet c.traffic_lights t).map (fun l => l.set_state RED none now)) ∧
      c2.accident_detected = c.accident_detected ∧
      alGet c2.intersections iid = some ids := by
  have hlidmem : lid ∈ ids := by
    have h := List.find?_some hfind2
    simpa using h
  set cE : Controller := { c with
    emergency_active := alSet c.emergency_active iid true,
    emergency_vehicle_zone := alSet c.emergency_vehicle_zone iid zone,
    emergency_start_time := alSet c.emergency_start_time iid now,
    emergency_buffer_active := alSet c.emergency_buffer_active iid false } with hcE
  have hidsE : ∀ t ∈ ids, (alGet cE.traffic_lights t).isSome := hids
  obtain ⟨c2, hfold, hout, hred, hgrn, hact, -, hint, he1, he2, he3, he4,
    hacc, -, -⟩ := sepFold iid lid now ids cE hidsE hnd
  have hsep : set_emergency_priority cE iid lid now = some c2 := by
    unfold set_emergency_priority
    rw [show alGet cE.intersections iid = some ids from hgetI]
    rw [Option.some_bind]
    exact hfold
  refine ⟨c2, ?_, ?_, ?_, ?_, ?_, hact hlidmem, hgrn hlidmem, hred, ?_, ?_⟩
  · unfold report_emergency_vehicle
    rw [if_neg hz, hfind]
    simp only [Option.map_some', Option.some_bind, hfind2]
    rw [if_neg hne]
    rw [if_pos (show True ∧ ¬ alGetD c.emergency_active iid false = true by
      simp [hnotact])]
    rw [← hcE, hsep]
    rfl
  · rw [he1]
    show alGetD (alSet c.emergency_active iid true) iid false = true
    rw [alGetD_alSet, if_pos rfl]
  · rw [he2]
    show alGet (alSet c.emergency_vehicle_zone iid zone) iid = some zone
    rw [alGet_alSet, if_pos rfl]
  · rw [he3]
    show alGet (alSet c.emergency_start_time iid now) iid = some now
    rw [alGet_alSet, if_pos rfl]
  · rw [he4]
    show alGetD (alSet c.emergency_buffer_active iid false) iid true = false
    rw [alGetD_alSet, if_pos rfl]
  · rw [hacc]
  · rw [hint]
    exact hgetI

/-! ### C2 — exclusion / override state properties -/

/-- Reachable state: one light, one intersection. -/
def c2sA : Controller := add_traffic_light initController cfgA (Q.ofInt 0)

/-- Reachable state: after creating intersection `I`. -/
def c2sB : Controller :=
  match create_intersection c2sA "I" ["A"] (Q.ofInt 0) with
  | some c => c
  | none => c2sA

/-- Reachable state: accident reported (all lights forced RED). -/
def c2sC : Controller := (report_accident c2sB true none (Q.ofInt 1)).1

/-- Reachable state: an emergency vehicle reported while the accident is
still active — the priority light turns GREEN again. -/
def c2sD : Controller :=
  match report_emergency_vehicle c2sC "za" true (Q.ofInt 2) with
  | some p => p.1
  | none => c2sC

/-- **C2 counterexample**: the invariant "whenever `accident_detected` is
true, every light is RED" fails on a reachable state — after
`report_accident(True)`, a `report_emergency_vehicle` rising edge sets
light `A` GREEN while `accident_detected` is still true (nothing in
`report_emergency_vehicle` checks the accident flag). -/
theorem claim_C2_counterexample :
    create_intersection c2sA "I" ["A"] (Q.ofInt 0) = some c2sB
  ∧ report_accident c2sB true none (Q.ofInt 1) = (c2sC, true)
  ∧ report_emergency_vehicle c2sC "za" true (Q.ofInt 2) = some (c2sD, true)
  ∧ c2sD.accident_detected = true
  ∧ (alGet c2sD.traffic_lights "A").map (fun l => l.state) = some GREEN := by
  decide

/-- `update_all_lights` under an active accident forces every light RED
and returns `False`. -/
theorem update_all_lights_accident (c : Controller) (now : Q)
    (h : c.accident_detected = true) :
    ∃ c2, update_all_lights c now = some (c2, false) ∧
      ∀ p ∈ c2.traffic_lights, p.2.state = RED := by
  unfold update_all_lights
  rw [if_pos (show ({ c with
      adaptive_mode_changed := c.adaptive_mode != c.last_adaptive_mode,
      last_adaptive_mode := c.adaptive_mode } : Controller).accident_detected
      = true from h)]
  exact ⟨_, rfl, handle_accident_all_red _ now⟩

/-- A rising-edge `report_accident` sets the flag, forces every light RED
and returns `True`. -/
theorem report_accident_rising (c : Controller) (z : Option String) (now : Q)
    (h : c.accident_detected = false) :
    (report_accident c true z now).2 = true ∧
    (report_accident c true z now).1.accident_detected = true ∧
    ∀ p ∈ (report_accident c true z now).1.traffic_lights, p.2.state = RED := by
  unfold report_accident
  rw [if_pos rfl, if_pos (by simp [h])]
  dsimp only
  cases z with
  | none =>
    refine ⟨rfl, rfl, ?_⟩
    exact handle_accident_all_red _ now
  | some zv =>
    dsimp only
    by_cases hm : zv ∈ c.accident_zones
    · rw [if_pos hm]
      exact ⟨rfl, rfl, handle_accident_all_red _ now⟩
    · rw [if_neg hm]
      exact ⟨rfl, rfl, handle_accident_all_red _ now⟩

/-- **C2 amended**: the claimed exclusion properties hold as
postconditions of the operations that establish them, not as a global
invariant over reachable states: (a) a tick taken while
`accident_detected` holds leaves every light RED; (b) a rising-edge
`report_accident` does the same immediately; (c) `create_intersection`
leaves its first valid member GREEN and the other valid members RED;
(d) a rising-edge `report_emergency_vehicle` leaves the matched light
GREEN with duration `max_green_time` and every sibling member RED.
Between such calls other public calls may break these properties (see
the counterexample) until the next tick reasserts them. -/
theorem claim_C2 :
    (∀ (c : Controller) (now : Q), c.accident_detected = true →
       ∃ c2, update_all_lights c now = some (c2, false) ∧
         ∀ p ∈ c2.traffic_lights, p.2.state = RED)
  ∧ (∀ (c : Controller) (z : Option String) (now : Q),
       c.accident_detected = false →
       (report_accident c true z now).2 = true ∧
       (report_accident c true z now).1.accident_detected = true ∧
       ∀ p ∈ (report_accident c true z now).1.traffic_lights, p.2.state = RED)
  ∧ (∀ (c : Controller) (iid : String) (ids : List String) (now : Q)
       (first : String) (rest : List String),
       ids.filter (fun tid => alHas c.traffic_lights tid) = first :: rest →
       (first :: rest).Nodup →
       ∃ c2, create_intersection c iid ids now = some c2 ∧
         (alGet c2.traffic_lights first).map (fun l => l.state) = some GREEN ∧
         ∀ t ∈ rest, (alGet c2.traffic_lights t).map (fun l => l.state) = some RED)
  ∧ (∀ (c : Controller) (zone : String) (now : Q) (lid : String)
       (light : TrafficLight) (iid : String) (ids : List String),
       ¬ zone = "" →
       c.traffic_lights.find? (fun p => p.2.config.zone_id = zone)
         = some (lid, light) →
       c.intersections.find? (fun p => lid ∈ p.2) = some (iid, ids) →
       ¬ (iid = "" ∨ lid = "") →
       alGetD c.emergency_active iid false = false →
       alGet c.intersections iid = some ids →
       alGet c.traffic_lights lid = some light →
       light.config.min_green_time ≤ light.config.max_green_time →
       (∀ t ∈ ids, (alGet c.traffic_lights t).isSome) →
       ids.Nodup →
       ∃ c2, report_emergency_vehicle c zone true now = some (c2, true) ∧
         (alGet c2.traffic_lights lid).map (fun l => (l.state, l.current_duration))
           = some (GREEN, light.config.max_green_time) ∧
         ∀ t ∈ ids, t ≠ lid →
           (alGet c2.traffic_lights t).map (fun l => l.state) = some RED) := by
  refine ⟨update_all_lights_accident, report_accident_rising, ?_, ?_⟩
  · intro c iid ids now first rest hfilter hnd
    obtain ⟨c2, hc2, hfirst, hrest, -⟩ :=
      create_intersection_spec c iid ids now first rest hfilter hnd
    refine ⟨c2, hc2, ?_, hrest⟩
    cases hg : alGet c2.traffic_lights first with
    | none => rw [hg] at hfirst; simp at hfirst
    | some l =>
      rw [hg] at hfirst
      simp only [Option.map_some', Option.some.injEq, Prod.mk.injEq] at hfirst
      simp only [hg, Option.map_some', Option.some.injEq]
      exact hfirst.1
  · intro c zone now lid light iid ids hz hfind hfind2 hne hnotact hgetI hgetlid
      hminmax hids hnd
    obtain ⟨c2, hrun, -, -, -, -, -, hgrn, hred, -, -⟩ :=
      report_emergency_rising_spec c zone now hz lid light iid ids hfind hfind2
        hne hnotact hgetI hids hnd
    refine ⟨c2, hrun, ?_, ?_⟩
    · rw [hgrn, hgetlid]
      simp only [Option.map_some', Option.some.injEq, Prod.mk.injEq]
      constructor
      · rfl
      · show max light.config.min_green_time
          (min light.config.max_green_time light.config.max_green_time)
          = light.config.max_green_time
        rw [min_self, max_eq_right hminmax]
    · intro t ht hne2
      rw [hred t ht hne2]
      obtain ⟨lt, hlt⟩ := Option.isSome_iff_exists.mp (hids t ht)
      rw [hlt]
      rfl

/-- Witness for C2 at a concrete accident-mode state: one tick of
`update_all_lights` on `c2sC` succeeds and leaves every light RED. -/
theorem claim_C2_witness :
    ∃ c2, update_all_lights c2sC (Q.ofInt 5) = some (c2, false) ∧
      ∀ p ∈ c2.traffic_lights, p.2.state = RED :=
  (claim_C2).1 c2sC (Q.ofInt 5) (by decide)

/-! ### C9 — load_configuration partial-failure behaviour -/

/-- A config file whose only intersection entry references one known and
one unknown light id. -/
def c9cfg : ConfigData :=
  { traffic_lights := [entryOfConfig cfgA]
    intersections := [("I", ["A", "BOGUS"])] }

/-- Result of loading `c9cfg`. -/
def c9res : Controller × Bool :=
  load_configuration initController (some c9cfg) (Q.ofInt 0)

/-- A config file whose second light entry is malformed (missing the
required `name`/`zone_id` keys). -/
def c9bad : ConfigData :=
  { traffic_lights := [entryOfConfig cfgA, { id := some "B" }]
    intersections := [] }

/-- A previously configured controller (light `C`, intersection `J`). -/
def c9pre : Controller :=
  match create_intersection
      (add_traffic_light initController
        { id := "C", name := "C", zone_id := "zc" } (Q.ofInt 0))
      "J" ["C"] (Q.ofInt 0) with
  | some c => c
  | none => initController

/-- Result of loading the malformed `c9bad` over `c9pre`. -/
def c9res2 : Controller × Bool :=
  load_configuration c9pre (some c9bad) (Q.ofInt 0)

/-- **C9 counterexample**: (i) the intersection entry `["A", "BOGUS"]`
references the unknown id `"BOGUS"` yet is *not* skipped — it is created
with the unknown id silently dropped; (ii) a malformed light entry makes
the load return `False` but leaves the controller half-initialised: the
old configuration (light `C`, intersection `J`) is gone and the lights
before the malformed entry are already loaded. -/
theorem claim_C9_counterexample :
    c9res.2 = true
  ∧ alGet c9res.1.intersections "I" = some ["A"]
  ∧ alHas c9res.1.traffic_lights "BOGUS" = false
  ∧ c9res2.2 = false
  ∧ alHas c9res2.1.traffic_lights "A" = true
  ∧ alHas c9res2.1.traffic_lights "C" = false
  ∧ c9res2.1.intersections = [] := by decide

/-- A complete light entry (all required JSON keys present). -/
def completeEntry (e : LightEntry) : Prop :=
  e.id.isSome ∧ e.name.isSome ∧ e.zone_id.isSome

/-- `loadLights` on a list whose first incomplete entry is `e` loads
exactly the complete prefix and reports failure. -/
theorem loadLights_partial (pre : List LightEntry) (e : LightEntry)
    (post : List LightEntry) (now : Q) :
    ∀ c : Controller, (∀ e2 ∈ pre, completeEntry e2) → ¬ completeEntry e →
    loadLights c (pre ++ e :: post) now = ((loadLights c pre now).1, false) := by
  induction pre with
  | nil =>
    intro c _ hbad
    show loadLights c (e :: post) now = ((c, true).1, false)
    cases hid : e.id with
    | none => unfold loadLights; rw [hid]
    | some i =>
      cases hname : e.name with
      | none => unfold loadLights; rw [hid, hname]
      | some n =>
        cases hzone : e.zone_id with
        | none => unfold loadLights; rw [hid, hname, hzone]
        | some z =>
          exact absurd ⟨by simp [hid], by simp [hname], by simp [hzone]⟩ hbad
  | cons e2 t ih =>
    intro c hpre hbad
    obtain ⟨i2, hi2⟩ := Option.isSome_iff_exists.mp (hpre e2 (by simp)).1
    obtain ⟨n2, hn2⟩ := Option.isSome_iff_exists.mp (hpre e2 (by simp)).2.1
    obtain ⟨z2, hz2⟩ := Option.isSome_iff_exists.mp (hpre e2 (by simp)).2.2
    show loadLights c (e2 :: (t ++ e :: post)) now = _
    unfold loadLights
    rw [hi2, hn2, hz2]
    exact ih _ (fun e3 he3 => hpre e3 (by simp [he3])) hbad

/-- **C9 amended**: an unreadable/unparsable file leaves the controller
untouched and returns `False`; an intersection entry is skipped only
when *none* of its referenced light ids is known, while an entry with at
least one known id is created from the known subset (unknown ids
silently dropped); and a malformed light entry aborts with `False`,
leaving the controller cleared and repopulated with exactly the light
entries preceding the malformed one (the prior configuration is lost). -/
theorem claim_C9 :
    (∀ (c : Controller) (now : Q), load_configuration c none now = (c, false))
  ∧ (∀ (c : Controller) (i : String) (ids : List String) (now : Q),
       ids.filter (fun t => alHas c.traffic_lights t) = [] →
       loadIntersectionStep now c (i, ids) = c)
  ∧ (∀ (c : Controller) (i : String) (ids : List String) (now : Q)
       (first : String) (rest : List String),
       ids.filter (fun t => alHas c.traffic_lights t) = first :: rest →
       (first :: rest).Nodup →
       ∃ c2, loadIntersectionStep now c (i, ids) = c2 ∧
         alGet c2.intersections i = some (first :: rest))
  ∧ (∀ (c : Controller) (cfg : ConfigData) (now : Q)
       (pre : List LightEntry) (e : LightEntry) (post : List LightEntry),
       cfg.traffic_lights = pre ++ e :: post →
       (∀ e2 ∈ pre, completeEntry e2) → ¬ completeEntry e →
       load_configuration c (some cfg) now
         = ((loadLights
              { c with
                traffic_lights := []
                intersections := []
                active_phase := [] } pre now).1, false)) := by
  refine ⟨fun c now => rfl, ?_, ?_, ?_⟩
  · intro c i ids now hfilter
    have hnone : create_intersection c i ids now = none := by
      unfold create_intersection
      rw [hfilter]
    unfold loadIntersectionStep
    rw [hnone]
  · intro c i ids now first rest hfilter hnd
    obtain ⟨c2, hc2, -, -, hint, -⟩ :=
      create_intersection_spec c i ids now first rest hfilter hnd
    refine ⟨c2, ?_, hint⟩
    unfold loadIntersectionStep
    rw [hc2]
  · intro c cfg now pre e post hsplit hpre hbad
    unfold load_configuration
    dsimp only
    rw [hsplit, loadLights_partial pre e post now _ hpre hbad]

/-- Witness for C9: the mixed entry `["A", "BOGUS"]` is loaded as the
intersection `["A"]` rather than skipped. -/
theorem claim_C9_witness :
    ∃ c2, loadIntersectionStep (Q.ofInt 0)
        (add_traffic_light initController cfgA (Q.ofInt 0))
        ("I", ["A", "BOGUS"]) = c2 ∧
      alGet c2.intersections "I" = some ["A"] :=
  (claim_C9).2.2.1 (add_traffic_light initController cfgA (Q.ofInt 0))
    "I" ["A", "BOGUS"] (Q.ofInt 0) "A" [] (by decide) (by decide)

/-! ### C8 — configuration round trip -/

theorem loadLights_entries (now : Q) (cfgs : List TrafficLightConfig) :
    ∀ c : Controller,
      loadLights c (cfgs.map entryOfConfig) now
        = (cfgs.foldl (fun c cfg => add_traffic_light c cfg now) c, true) := by
  induction cfgs with
  | nil => intro c; rfl
  | cons cfg t ih =>
    intro c
    exact ih (add_traffic_light c cfg now)

theorem foldl_add_lights (now : Q) (cfgs : List TrafficLightConfig) :
    ∀ c : Controller,
      (∀ cfg ∈ cfgs, alGet c.traffic_lights cfg.id = none) →
      ((cfgs.map (fun cfg => cfg.id)).Nodup) →
      (cfgs.foldl (fun c cfg => add_traffic_light c cfg now) c).traffic_lights
          = c.traffic_lights
            ++ cfgs.map (fun cfg => (cfg.id, mkTrafficLight cfg now))
        ∧ (cfgs.foldl (fun c cfg => add_traffic_light c cfg now) c).intersections
            = c.intersections := by
  induction cfgs with
  | nil => intro c _ _; exact ⟨(List.append_nil _).symm, rfl⟩
  | cons cfg t ih =>
    intro c hfresh hnd
    simp only [List.map_cons, List.nodup_cons] at hnd
    have h1 : (add_traffic_light c cfg now).traffic_lights
        = c.traffic_lights ++ [(cfg.id, mkTrafficLight cfg now)] := by
      show alSet c.traffic_lights cfg.id (mkTrafficLight cfg now) = _
      exact alSet_append _ _ _ (hfresh cfg (List.mem_cons_self cfg t))
    have hfresh2 : ∀ d ∈ t,
        alGet (add_traffic_light c cfg now).traffic_lights d.id = none := by
      intro d hd
      rw [h1, alGet_append]
      have hne : cfg.id ≠ d.id := by
        intro he
        exact hnd.1 (he ▸ List.mem_map_of_mem (fun x => x.id) hd)
      rw [hfresh d (List.mem_cons_of_mem cfg hd)]
      simp [alGet, hne]
    obtain ⟨hl, hi⟩ := ih (add_traffic_light c cfg now) hfresh2 hnd.2
    constructor
    · show (t.foldl (fun c cfg => add_traffic_light c cfg now)
          (add_traffic_light c cfg now)).traffic_lights = _
      rw [hl, h1, List.append_assoc]
      rfl
    · show (t.foldl (fun c cfg => add_traffic_light c cfg now)
          (add_traffic_light c cfg now)).intersections = _
      rw [hi]
      rfl

theorem loadInts (now : Q) (base : Controller)
    (entries : List (String × List String)) :
    ∀ cur : Controller,
      (∀ k, alHas cur.traffic_lights k = alHas base.traffic_lights k) →
      (∀ e ∈ entries, e.2 ≠ [] ∧ e.2.Nodup ∧
        ∀ t ∈ e.2, alHas base.traffic_lights t = true) →
      (∀ e ∈ entries, alGet cur.intersections e.1 = none) →
      ((entries.map Prod.fst).Nodup) →
      (entries.foldl (loadIntersectionStep now) cur).intersections
          = cur.intersections ++ entries
        ∧ (entries.foldl (loadIntersectionStep now) cur).traffic_lights.map
              (fun p => (p.1, p.2.config))
            = cur.traffic_lights.map (fun p => (p.1, p.2.config)) := by
  induction entries with
  | nil => intro cur _ _ _ _; exact ⟨(List.append_nil _).symm, rfl⟩
  | cons e t ih =>
    intro cur hkeys hwf hfresh hnd
    obtain ⟨iid, ids⟩ := e
    simp only [List.map_cons, List.nodup_cons] at hnd
    obtain ⟨hne, hnodup, hmem⟩ := hwf (iid, ids) (List.mem_cons_self _ t)
    cases ids with
    | nil => exact absurd rfl hne
    | cons first rest =>
      have hfilter : (first :: rest).filter
          (fun tid => alHas cur.traffic_lights tid) = first :: rest :=
        List.filter_eq_self.mpr
          (fun x hx => by rw [hkeys x]; exact hmem x hx)
      obtain ⟨c2, hrun, -, -, -, -, -, -, -, -, -, -, hint2, hkeys2, hcfg2⟩ :=
        create_intersection_spec cur iid (first :: rest) now first rest
          hfilter hnodup
      have hstep : loadIntersectionStep now cur (iid, first :: rest) = c2 := by
        unfold loadIntersectionStep
        rw [hrun]
      have hint2' : c2.intersections
          = cur.intersections ++ [(iid, first :: rest)] := by
        rw [hint2]
        exact alSet_append _ _ _ (hfresh (iid, first :: rest)
          (List.mem_cons_self _ t))
      have hfresh2 : ∀ e2 ∈ t, alGet c2.intersections e2.1 = none := by
        intro e2 he2
        rw [hint2', alGet_append,
            hfresh e2 (List.mem_cons_of_mem _ he2)]
        have hne2 : iid ≠ e2.1 := by
          intro he
          exact hnd.1 (he ▸ List.mem_map_of_mem Prod.fst he2)
        simp [alGet, hne2]
      have hkeysc2 : ∀ k, alHas c2.traffic_lights k
          = alHas base.traffic_lights k := by
        intro k
        rw [hkeys2 k, hkeys k]
      obtain ⟨ihint, ihcfg⟩ := ih c2 hkeysc2
        (fun e2 he2 => hwf e2 (List.mem_cons_of_mem _ he2)) hfresh2 hnd.2
      constructor
      · show (t.foldl (loadIntersectionStep now)
            (loadIntersectionStep now cur (iid, first :: rest))).intersections = _
        rw [hstep, ihint, hint2', List.append_assoc]
        rfl
      · show (t.foldl (loadIntersectionStep now)
            (loadIntersectionStep now cur (iid, first :: rest))).traffic_lights.map
              (fun p => (p.1, p.2.config)) = _
        rw [hstep, ihcfg, hcfg2]

/-- The state-clearing prefix of `load_configuration` (the three
assignments before the loading loops). -/
def clearLoaded (c : Controller) : Controller :=
  { c with traffic_lights := [], intersections := [], active_phase := [] }

/-- **C8**: for a well-formed controller state (light keys are the config
ids and are distinct, every intersection member list is nonempty, without
duplicates and refers to known lights, intersection keys are distinct),
`load_configuration` applied to the document produced by
`save_configuration` returns `True` and reproduces the identical static
configuration: the same ordered id-to-config table and the same ordered
intersections with identical member lists. -/
theorem claim_C8 (c cload : Controller) (now : Q)
    (hid : ∀ p ∈ c.traffic_lights, (p.2).config.id = p.1)
    (hkeys : (c.traffic_lights.map Prod.fst).Nodup)
    (hints : ∀ e ∈ c.intersections, e.2 ≠ [] ∧ e.2.Nodup ∧
      ∀ t ∈ e.2, alHas c.traffic_lights t = true)
    (hikeys : (c.intersections.map Prod.fst).Nodup) :
    ∃ c2, load_configuration cload (some (save_configuration c)) now
        = (c2, true) ∧
      c2.traffic_lights.map (fun p => (p.1, p.2.config))
        = c.traffic_lights.map (fun p => (p.1, p.2.config)) ∧
      c2.intersections = c.intersections := by
  have hidmap : (c.traffic_lights.map (fun p => p.2.config)).map
        (fun cfg => cfg.id)
      = c.traffic_lights.map Prod.fst := by
    rw [List.map_map]
    exact List.map_congr_left hid
  have hfresh : ∀ cfg ∈ c.traffic_lights.map (fun p => p.2.config),
      alGet (clearLoaded cload).traffic_lights cfg.id = none :=
    fun cfg _ => rfl
  obtain ⟨hlights, hints0⟩ := foldl_add_lights now
    (c.traffic_lights.map (fun p => p.2.config)) (clearLoaded cload)
    hfresh (hidmap ▸ hkeys)
  have hLl : ((c.traffic_lights.map (fun p => p.2.config)).foldl
        (fun c cfg => add_traffic_light c cfg now)
        (clearLoaded cload)).traffic_lights
      = (c.traffic_lights.map (fun p => p.2.config)).map
          (fun cfg => (cfg.id, mkTrafficLight cfg now)) := by
    rw [hlights]
    exact List.nil_append _
  have hkeysL : ∀ k, alHas ((c.traffic_lights.map (fun p => p.2.config)).foldl
        (fun c cfg => add_traffic_light c cfg now)
        (clearLoaded cload)).traffic_lights k
      = alHas c.traffic_lights k := by
    intro k
    apply alHas_eq_of_keys_eq
    rw [hLl, List.map_map]
    exact hidmap
  have hfreshI : ∀ e ∈ c.intersections,
      alGet ((c.traffic_lights.map (fun p => p.2.config)).foldl
        (fun c cfg => add_traffic_light c cfg now)
        (clearLoaded cload)).intersections e.1 = none := by
    intro e _
    rw [hints0]
    rfl
  obtain ⟨hI, hC⟩ := loadInts now c c.intersections _ hkeysL hints hfreshI hikeys
  refine ⟨c.intersections.foldl (loadIntersectionStep now)
    ((c.traffic_lights.map (fun p => p.2.config)).foldl
      (fun c cfg => add_traffic_light c cfg now) (clearLoaded cload)),
    ?_, ?_, ?_⟩
  · have hsave : (save_configuration c).traffic_lights
        = (c.traffic_lights.map (fun p => p.2.config)).map entryOfConfig := by
      show c.traffic_lights.map (fun p => entryOfConfig p.2.config) = _
      rw [List.map_map]
      rfl
    unfold load_configuration
    dsimp only
    rw [hsave, loadLights_entries]
    rfl
  · rw [hC, hLl, List.map_map, List.map_map]
    exact List.map_congr_left (fun p hp => by
      show (p.2.config.id, p.2.config) = (p.1, p.2.config)
      rw [hid p hp])
  · rw [hI, hints0]
    exact List.nil_append _

/-- Witness for C8: the two-light, one-intersection state `c6state`
round-trips through save and load. -/
theorem claim_C8_witness :
    ∃ c2, load_configuration initController
        (some (save_configuration c6state)) (Q.ofInt 1) = (c2, true) ∧
      c2.traffic_lights.map (fun p => (p.1, p.2.config))
        = c6state.traffic_lights.map (fun p => (p.1, p.2.config)) ∧
      c2.intersections = c6state.intersections :=
  claim_C8 c6state initController (Q.ofInt 1)
    (by decide) (by decide) (by decide) (by decide)

/-! ### C1 — update_all_lights never raises (refuted) -/

/-- Reachable state: one light `A` (zone `za`). -/
def c1s1 : Controller := add_traffic_light initController cfgA (Q.ofInt 0)

/-- Reachable state: intersection `I` over `[A]` added. -/
def c1s2 : Controller :=
  match create_intersection c1s1 "I" ["A"] (Q.ofInt 0) with
  | some c => c
  | none => c1s1

/-- Reachable state: emergency reported for zone `za` (preempting `I`). -/
def c1s3 : Controller :=
  match report_emergency_vehicle c1s2 "za" true (Q.ofInt 1) with
  | some (c, _) => c
  | none => c1s2

/-- Reachable state: emergency cleared, buffer countdown started for `I`. -/
def c1s4 : Controller :=
  match report_emergency_vehicle c1s3 "za" false (Q.ofInt 2) with
  | some (c, _) => c
  | none => c1s3

/-- Reachable state: an empty configuration file loaded successfully;
`traffic_lights`, `intersections` and `active_phase` are cleared but the
emergency bookkeeping maps are not. -/
def c1s5 : Controller := (load_configuration c1s4 (some {}) (Q.ofInt 3)).1

/-- **C1** (refuted — code bug): the public-call sequence
`add_traffic_light(A)`, `create_intersection(I, [A])`,
`report_emergency_vehicle(za, True)`, `report_emergency_vehicle(za, False)`,
`load_configuration(empty file)` reaches a state in which
`emergency_buffer_active["I"]` is still `True` while intersection `I` no
longer exists, and the next `update_all_lights()` call fails:
`_check_emergency_buffer` evaluates `self.intersections[intersection_id]`
for the stale id `I` and raises `KeyError` (the `none` result), so
`update_all_lights` does not run to completion on every reachable state. -/
theorem claim_C1 :
    create_intersection c1s1 "I" ["A"] (Q.ofInt 0) = some c1s2
  ∧ report_emergency_vehicle c1s2 "za" true (Q.ofInt 1) = some (c1s3, true)
  ∧ report_emergency_vehicle c1s3 "za" false (Q.ofInt 2) = some (c1s4, false)
  ∧ load_configuration c1s4 (some {}) (Q.ofInt 3) = (c1s5, true)
  ∧ alGetD c1s5.emergency_buffer_active "I" false = true
  ∧ alGet c1s5.intersections "I" = none
  ∧ update_all_lights c1s5 (Q.ofInt 4) = none := by decide

/-! ### C4 — emergency preemption lifecycle -/

/-- Reachable state: lights `A` (zone `za`) and `B` (zone `zb`). -/
def c4s1 : Controller :=
  add_traffic_light (add_traffic_light initController cfgA (Q.ofInt 0))
    cfgB (Q.ofInt 0)

/-- Reachable state: intersection `I` over `[A, B]`. -/
def c4s2 : Controller :=
  match create_intersection c4s1 "I" ["A", "B"] (Q.ofInt 0) with
  | some c => c
  | none => c4s1

/-- Reachable state: emergency vehicle reported in zone `za` at `t = 1`. -/
def c4s3 : Controller :=
  match report_emergency_vehicle c4s2 "za" true (Q.ofInt 1) with
  | some (c, _) => c
  | none => c4s2

/-- Reachable state: emergency cleared at `t = 2`, buffer countdown armed. -/
def c4s4 : Controller :=
  match report_emergency_vehicle c4s3 "za" false (Q.ofInt 2) with
  | some (c, _) => c
  | none => c4s3

/-- Reachable state: the tick at `t = 7` (elapsed `5 ≥ emergency_buffer_time`). -/
def c4s5 : Controller :=
  match update_all_lights c4s4 (Q.ofInt 7) with
  | some (c, _) => c
  | none => c4s4

/-- Reachable state: the tick at `t = 6` (elapsed `4 <` the buffer time). -/
def c4s6 : Controller :=
  match update_all_lights c4s4 (Q.ofInt 6) with
  | some (c, _) => c
  | none => c4s4

/-- The stored light `A` in state `c4s4`. -/
def c4lA : TrafficLight :=
  match alGet c4s4.traffic_lights "A" with
  | some l => l
  | none => mkTrafficLight cfgA (Q.ofInt 0)

/-- The rising edge of `report_emergency_vehicle` with the clamped duration
evaluated: the matched light ends GREEN for exactly `max_green_time`. -/
theorem report_emergency_rising_durations (c : Controller) (zone : String)
    (now : Q) (lid : String) (light : TrafficLight) (iid : String)
    (ids : List String)
    (hz : ¬ zone = "")
    (hfind : c.traffic_lights.find? (fun p => p.2.config.zone_id = zone)
      = some (lid, light))
    (hfind2 : c.intersections.find? (fun p => lid ∈ p.2) = some (iid, ids))
    (hne : ¬ (iid = "" ∨ lid = ""))
    (hnotact : alGetD c.emergency_active iid false = false)
    (hgetI : alGet c.intersections iid = some ids)
    (hgetL : alGet c.traffic_lights lid = some light)
    (hids : ∀ t ∈ ids, (alGet c.traffic_lights t).isSome)
    (hnd : ids.Nodup)
    (hmm : light.config.min_green_time ≤ light.config.max_green_time) :
    ∃ c2, report_emergency_vehicle c zone true now = some (c2, true) ∧
      alGetD c2.emergency_active iid false = true ∧
      alGet c2.emergency_vehicle_zone iid = some zone ∧
      alGet c2.emergency_start_time iid = some now ∧
      alGetD c2.emergency_buffer_active iid true = false ∧
      (alGet c2.traffic_lights lid).map (fun l => (l.state, l.current_duration))
        = some (GREEN, light.config.max_green_time) ∧
      (∀ t ∈ ids, t ≠ lid →
        (alGet c2.traffic_lights t).map (fun l => l.state) = some RED) := by
  obtain ⟨c2, hrun, hea, hzn, hst, hba, hap, hgrn, hred, hacc, hgi⟩ :=
    report_emergency_rising_spec c zone now hz lid light iid ids hfind hfind2
      hne hnotact hgetI hids hnd
  refine ⟨c2, hrun, hea, hzn, hst, hba, ?_, ?_⟩
  · rw [hgrn, hgetL]
    show some (GREEN,
      max light.config.min_green_time
        (min light.config.max_green_time light.config.max_green_time)) = _
    rw [min_self, max_eq_right hmm]
  · intro t ht htl
    rw [hred t ht htl]
    obtain ⟨lt, hlt⟩ := Option.isSome_iff_exists.mp (hids t ht)
    rw [hlt]
    rfl

/-- The falling edge of `report_emergency_vehicle`: while the intersection
is in emergency mode and the buffer is not yet armed, reporting the
vehicle gone arms the buffer, restamps the start time, clears nothing
else, and returns `False`. -/
theorem report_emergency_falling_spec (c : Controller) (zone : String)
    (now : Q) (lid : String) (light : TrafficLight) (iid : String)
    (ids : List String)
    (hz : ¬ zone = "")
    (hfind : c.traffic_lights.find? (fun p => p.2.config.zone_id = zone)
      = some (lid, light))
    (hfind2 : c.intersections.find? (fun p => lid ∈ p.2) = some (iid, ids))
    (hne : ¬ (iid = "" ∨ lid = ""))
    (hact : alGetD c.emergency_active iid false = true)
    (hbuf : alGetD c.emergency_buffer_active iid false = false) :
    report_emergency_vehicle c zone false now
      = some ({ c with
          emergency_buffer_active := alSet c.emergency_buffer_active iid true,
          emergency_start_time := alSet c.emergency_start_time iid now },
        false) := by
  unfold report_emergency_vehicle
  rw [if_neg hz, hfind]
  simp only [Option.map_some', Option.some_bind, hfind2]
  rw [if_neg hne]
  rw [if_neg (show ¬ ((false : Bool) = true ∧
    ¬ alGetD c.emergency_active iid false = true) by simp)]
  rw [if_pos (show ¬ (false : Bool) = true ∧
    alGetD c.emergency_active iid false = true by simp [hact])]
  rw [if_pos (show ¬ alGetD c.emergency_buffer_active iid false = true by
    simp [hbuf])]

/-- The emergency loop of `update_all_lights` when the armed buffer has
expired: elapsed time since the buffer start reaching the
`emergency_buffer_time` of the first member light clears
`emergency_active` and `emergency_buffer_active` and pops the recorded
zone, leaving lights, phases and intersections untouched for the rest of
the tick. -/
theorem emergency_buffer_expiry_spec (c : Controller) (iid : String)
    (now s : Q) (first : String) (rest : List String) (l : TrafficLight)
    (hEA : c.emergency_active = [(iid, true)])
    (hbuf : alGetD c.emergency_buffer_active iid false = true)
    (hint : alGet c.intersections iid = some (first :: rest))
    (hlight : alGet c.traffic_lights first = some l)
    (hstart : alGetD c.emergency_start_time iid (Q.ofInt 0) = s)
    (hle : Q.le (Q.ofInt l.config.emergency_buffer_time) (Q.sub now s) = true) :
    (c.emergency_active.map Prod.fst).foldlM (emStep now) (c, false)
      = some ({ c with
          emergency_active := alSet c.emergency_active iid false,
          emergency_buffer_active := alSet c.emergency_buffer_active iid false,
          emergency_vehicle_zone := alPop c.emergency_vehicle_zone iid }, true) := by
  have h1 : c.emergency_active.map Prod.fst = [iid] := by rw [hEA]; rfl
  rw [h1]
  have hEAiid : alGetD c.emergency_active iid false = true := by
    rw [hEA]
    unfold alGetD alGet
    rw [if_pos rfl]
    rfl
  have hcheck : check_emergency_buffer c iid now
      = some ({ c with
          emergency_active := alSet c.emergency_active iid false,
          emergency_buffer_active := alSet c.emergency_buffer_active iid false,
          emergency_vehicle_zone := alPop c.emergency_vehicle_zone iid }, true) := by
    unfold check_emergency_buffer
    rw [if_neg (show ¬ ¬ alGetD c.emergency_buffer_active iid false = true by
      simp [hbuf])]
    rw [hint, Option.some_bind]
    dsimp only
    rw [hlight]
    simp only [Option.map_some', Option.some_bind]
    rw [hstart, if_pos hle]
  simp only [List.foldlM_cons, List.foldlM_nil]
  unfold emStep
  dsimp only
  rw [hEAiid, if_pos rfl, hcheck]
  rfl

/-- **C4**: the emergency preemption lifecycle.  (i) A rising-edge
`report_emergency_vehicle` on a zone resolving to light `lid` inside
intersection `iid` not already in emergency mode records the flags, zone
and start time, forces the matched light GREEN for `max_green_time`,
every sibling RED, and returns `True`.  (ii) A falling edge while active
arms the buffer countdown without clearing `emergency_active` and
returns `False`.  (iii) In the next `update_all_lights`, once the time
elapsed since the buffer start reaches the `emergency_buffer_time` of
the first member light, the emergency loop clears the flags and pops the
zone.  (iv) On the concrete two-light intersection the full lifecycle
plays out: preempt at `t = 1`, release at `t = 2`, the tick at `t = 6`
keeps the flags (elapsed `4 < 5`), the tick at `t = 7` clears them and
resumes cycling from the still-current phase `A`. -/
theorem claim_C4 :
    (∀ (c : Controller) (zone : String) (now : Q) (lid : String)
       (light : TrafficLight) (iid : String) (ids : List String),
       ¬ zone = "" →
       c.traffic_lights.find? (fun p => p.2.config.zone_id = zone)
         = some (lid, light) →
       c.intersections.find? (fun p => lid ∈ p.2) = some (iid, ids) →
       ¬ (iid = "" ∨ lid = "") →
       alGetD c.emergency_active iid false = false →
       alGet c.intersections iid = some ids →
       alGet c.traffic_lights lid = some light →
       (∀ t ∈ ids, (alGet c.traffic_lights t).isSome) →
       ids.Nodup →
       light.config.min_green_time ≤ light.config.max_green_time →
       ∃ c2, report_emergency_vehicle c zone true now = some (c2, true) ∧
         alGetD c2.emergency_active iid false = true ∧
         alGet c2.emergency_vehicle_zone iid = some zone ∧
         alGet c2.emergency_start_time iid = some now ∧
         alGetD c2.emergency_buffer_active iid true = false ∧
         (alGet c2.traffic_lights lid).map
             (fun l => (l.state, l.current_duration))
           = some (GREEN, light.config.max_green_time) ∧
         (∀ t ∈ ids, t ≠ lid →
           (alGet c2.traffic_lights t).map (fun l => l.state) = some RED))
  ∧ (∀ (c : Controller) (zone : String) (now : Q) (lid : String)
       (light : TrafficLight) (iid : String) (ids : List String),
       ¬ zone = "" →
       c.traffic_lights.find? (fun p => p.2.config.zone_id = zone)
         = some (lid, light) →
       c.intersections.find? (fun p => lid ∈ p.2) = some (iid, ids) →
       ¬ (iid = "" ∨ lid = "") →
       alGetD c.emergency_active iid false = true →
       alGetD c.emergency_buffer_active iid false = false →
       report_emergency_vehicle c zone false now
         = some ({ c with
             emergency_buffer_active :=
               alSet c.emergency_buffer_active iid true,
             emergency_start_time := alSet c.emergency_start_time iid now },
           false))
  ∧ (∀ (c : Controller) (iid : String) (now s : Q) (first : String)
       (rest : List String) (l : TrafficLight),
       c.emergency_active = [(iid, true)] →
       alGetD c.emergency_buffer_active iid false = true →
       alGet c.intersections iid = some (first :: rest) →
       alGet c.traffic_lights first = some l →
       alGetD c.emergency_start_time iid (Q.ofInt 0) = s →
       Q.le (Q.ofInt l.config.emergency_buffer_time) (Q.sub now s) = true →
       (c.emergency_active.map Prod.fst).foldlM (emStep now) (c, false)
         = some ({ c with
             emergency_active := alSet c.emergency_active iid false,
             emergency_buffer_active :=
               alSet c.emergency_buffer_active iid false,
             emergency_vehicle_zone :=
               alPop c.emergency_vehicle_zone iid }, true))
  ∧ (create_intersection c4s1 "I" ["A", "B"] (Q.ofInt 0) = some c4s2
     ∧ report_emergency_vehicle c4s2 "za" true (Q.ofInt 1) = some (c4s3, true)
     ∧ (alGet c4s3.traffic_lights "A").map
           (fun l => (l.state, l.current_duration)) = some (GREEN, 60)
     ∧ (alGet c4s3.traffic_lights "B").map (fun l => l.state) = some RED
     ∧ report_emergency_vehicle c4s3 "za" false (Q.ofInt 2) = some (c4s4, false)
     ∧ alGetD c4s4.emergency_active "I" false = true
     ∧ alGetD c4s4.emergency_buffer_active "I" false = true
     ∧ update_all_lights c4s4 (Q.ofInt 6) = some (c4s6, false)
     ∧ alGetD c4s6.emergency_active "I" false = true
     ∧ update_all_lights c4s4 (Q.ofInt 7) = some (c4s5, true)
     ∧ alGetD c4s5.emergency_active "I" true = false
     ∧ alGetD c4s5.emergency_buffer_active "I" true = false
     ∧ alGet c4s5.emergency_vehicle_zone "I" = none
     ∧ alGet c4s5.active_phase "I" = some "A"
     ∧ (alGet c4s5.traffic_lights "A").map (fun l => l.state) = some GREEN) := by
  refine ⟨report_emergency_rising_durations, report_emergency_falling_spec,
    emergency_buffer_expiry_spec, ?_⟩
  decide

/-- Witness for C4, part (iii): in the concrete state `c4s4` the
emergency loop of the `t = 7` tick clears the flags. -/
theorem claim_C4_witness :
    (c4s4.emergency_active.map Prod.fst).foldlM (emStep (Q.ofInt 7))
        (c4s4, false)
      = some ({ c4s4 with
          emergency_active := alSet c4s4.emergency_active "I" false,
          emergency_buffer_active :=
            alSet c4s4.emergency_buffer_active "I" false,
          emergency_vehicle_zone :=
            alPop c4s4.emergency_vehicle_zone "I" }, true) :=
  (claim_C4).2.2.1 c4s4 "I" (Q.ofInt 7) (Q.ofInt 2) "A" ["B"] c4lA
    (by decide) (by decide) (by decide) (by decide) (by decide) (by decide)

/-! ### C7 — pedestrian phase exactly once per cycle -/

/-- Reachable state: lights `A` and `B` (for the pedestrian-cycle trace). -/
def c7s1 : Controller :=
  add_traffic_light (add_traffic_light initController cfgA (Q.ofInt 0))
    cfgB (Q.ofInt 0)

/-- Reachable state: intersection `I` over `[A, B]`, member `A` GREEN. -/
def c7s2 : Controller :=
  match create_intersection c7s1 "I" ["A", "B"] (Q.ofInt 0) with
  | some c => c
  | none => c7s1

/-- The traversal, tick 1 (`t = 1`): `A` GREEN expires to YELLOW. -/
def c7t1 : Controller :=
  match update_all_lights c7s2 (Q.ofInt 1) with
  | some (c, _) => c
  | none => c7s2

/-- Tick 2 (`t = 5`): `A` YELLOW expires to RED, phase advances to `B`. -/
def c7t2 : Controller :=
  match update_all_lights c7t1 (Q.ofInt 5) with
  | some (c, _) => c
  | none => c7t1

/-- Tick 3 (`t = 30`): `B` GREEN expires to YELLOW. -/
def c7t3 : Controller :=
  match update_all_lights c7t2 (Q.ofInt 30) with
  | some (c, _) => c
  | none => c7t2

/-- Tick 4 (`t = 40`): `B` RED, the cycle wraps, the pedestrian phase
starts — both lights PEDESTRIAN. -/
def c7t4 : Controller :=
  match update_all_lights c7t3 (Q.ofInt 40) with
  | some (c, _) => c
  | none => c7t3

/-- Tick 5 (`t = 60`): the pedestrian phase expires and member 0 (`A`)
turns GREEN again, completing the traversal. -/
def c7t5 : Controller :=
  match update_all_lights c7t4 (Q.ofInt 60) with
  | some (c, _) => c
  | none => c7t4

/-- The intermediate controller inside the `t = 40` tick, after the
per-light update loop and before the phase loop. -/
def c7w : Controller :=
  { c7t3 with traffic_lights :=
      c7t3.traffic_lights.map (fun p => (p.1, (p.2.update (Q.ofInt 40)).1)) }

/-- The stored light `B` in `c7w`. -/
def c7wB : TrafficLight :=
  match alGet c7w.traffic_lights "B" with
  | some l => l
  | none => mkTrafficLight cfgB (Q.ofInt 0)

theorem ped_timing_flags_congr (c : Controller)
    (pa pc : List (String × Bool)) (iid : String) :
    calculate_pedestrian_timing
      { c with pedestrian_phase_active := pa, pedestrian_phase_complete := pc }
      iid = calculate_pedestrian_timing c iid := rfl

theorem ped_wrap_spec (c : Controller) (ch : Bool) (iid : String)
    (ids : List String) (alid : String) (al : TrafficLight) (i : ℕ)
    (pd : ℤ) (now : Q)
    (hema : alGetD c.emergency_active iid false = false)
    (hap : alGet c.active_phase iid = some alid)
    (hal : alGet c.traffic_lights alid = some al)
    (hpa : alGetD c.pedestrian_phase_active iid false = false)
    (hred : al.state = RED)
    (hidx : listIndex ids alid = some i)
    (hwrap : (i + 1) % ids.length = 0)
    (hped : calculate_pedestrian_timing c iid = some pd)
    (hids : ∀ t ∈ ids, (alGet c.traffic_lights t).isSome)
    (hnd : ids.Nodup) :
    ∃ c2, processIntersection now (c, ch) (iid, ids) = some (c2, true) ∧
      alGetD c2.pedestrian_phase_active iid false = true ∧
      alGetD c2.pedestrian_phase_complete iid true = false ∧
      (∀ t ∈ ids,
        (alGet c2.traffic_lights t).map (fun l => l.state) = some PEDESTRIAN) ∧
      c2.active_phase = c.active_phase := by
  set cFlag : Controller := { c with
    pedestrian_phase_active := alSet c.pedestrian_phase_active iid true,
    pedestrian_phase_complete :=
      alSet (alSet c.pedestrian_phase_complete iid false) iid false } with hcF
  have hallF : ∀ t ∈ ids, (alGet cFlag.traffic_lights t).isSome := hids
  have hexp : pedStep pd now = fun c tid => withLight c tid
      (fun l => l.set_state PEDESTRIAN (some pd) now) := rfl
  obtain ⟨c2, hfold, hsame, hout, hin, -⟩ :=
    foldlM_withLight (fun l => l.set_state PEDESTRIAN (some pd) now) ids
      cFlag hallF
  obtain ⟨e1, e2, e3, e4, e5, e6, e7, e8, e9, e10, e11, e12, e13, e14, e15,
    e16⟩ := hsame
  have hpedF : calculate_pedestrian_timing cFlag iid = some pd :=
    (ped_timing_flags_congr c _ _ iid).trans hped
  refine ⟨c2, ?_, ?_, ?_, ?_, ?_⟩
  · unfold processIntersection
    dsimp only
    rw [if_neg (show ¬ alGetD c.emergency_active iid false = true by
      simp [hema])]
    rw [if_neg (show ¬ ¬ alHas c.active_phase iid = true by
      simp [alHas, hap])]
    rw [hap, Option.some_bind, hal, Option.some_bind]
    rw [if_neg (show ¬ alGetD c.pedestrian_phase_active iid false = true by
      simp [hpa])]
    rw [if_pos hred]
    rw [hidx, Option.some_bind]
    rw [if_pos hwrap]
    dsimp only
    rw [if_pos (show (i + 1) % ids.length = 0 ∧
      ¬ alGetD (alSet c.pedestrian_phase_complete iid false) iid false
        = true by
      refine ⟨hwrap, ?_⟩
      rw [alGetD_alSet, if_pos rfl]
      simp)]
    rw [← hcF, hpedF, Option.some_bind, hexp, hfold]
    rfl
  · rw [show c2.pedestrian_phase_active = cFlag.pedestrian_phase_active from e6]
    show alGetD (alSet c.pedestrian_phase_active iid true) iid false = true
    rw [alGetD_alSet, if_pos rfl]
  · rw [show c2.pedestrian_phase_complete = cFlag.pedestrian_phase_complete
      from e8]
    show alGetD (alSet (alSet c.pedestrian_phase_complete iid false) iid false)
      iid true = false
    rw [alGetD_alSet, if_pos rfl]
  · intro t ht
    rw [hin hnd t ht]
    obtain ⟨lt, hlt⟩ := Option.isSome_iff_exists.mp (hids t ht)
    show ((alGet c.traffic_lights t).map
      (fun l => l.set_state PEDESTRIAN (some pd) now)).map
        (fun l => l.state) = some PEDESTRIAN
    rw [hlt]
    rfl
  · rw [show c2.active_phase = cFlag.active_phase from e2]

theorem ped_advance_spec (c : Controller) (ch : Bool) (iid : String)
    (ids : List String) (alid nlid : String) (al nl : TrafficLight)
    (i : ℕ) (dur : ℤ) (now : Q)
    (hema : alGetD c.emergency_active iid false = false)
    (hap : alGet c.active_phase iid = some alid)
    (hal : alGet c.traffic_lights alid = some al)
    (hpa : alGetD c.pedestrian_phase_active iid false = false)
    (hred : al.state = RED)
    (hidx : listIndex ids alid = some i)
    (hnwrap : ¬ (i + 1) % ids.length = 0)
    (hnext : ids.get? ((i + 1) % ids.length) = some nlid)
    (hcat : calculate_adaptive_timing c iid nlid = some dur)
    (hnl : alGet c.traffic_lights nlid = some nl) :
    ∃ c2, processIntersection now (c, ch) (iid, ids) = some (c2, true) ∧
      alGetD c2.pedestrian_phase_active iid false = false ∧
      alGet c2.active_phase iid = some nlid ∧
      (alGet c2.traffic_lights nlid).map (fun l => l.state) = some GREEN ∧
      (∀ t, t ≠ nlid → alGet c2.traffic_lights t = alGet c.traffic_lights t) := by
  refine ⟨{ c with
    traffic_lights := alSet c.traffic_lights nlid
      (nl.set_state GREEN (some dur) now),
    active_phase := alSet c.active_phase iid nlid,
    phase_start_time := alSet c.phase_start_time iid now }, ?_, ?_, ?_, ?_, ?_⟩
  · unfold processIntersection
    dsimp only
    rw [if_neg (show ¬ alGetD c.emergency_active iid false = true by
      simp [hema])]
    rw [if_neg (show ¬ ¬ alHas c.active_phase iid = true by
      simp [alHas, hap])]
    rw [hap, Option.some_bind, hal, Option.some_bind]
    rw [if_neg (show ¬ alGetD c.pedestrian_phase_active iid false = true by
      simp [hpa])]
    rw [if_pos hred]
    rw [hidx, Option.some_bind]
    rw [if_neg hnwrap]
    rw [if_neg (show ¬ ((i + 1) % ids.length = 0 ∧
      ¬ alGetD c.pedestrian_phase_complete iid false = true) from
      fun h => hnwrap h.1)]
    rw [hnext, Option.some_bind]
    rw [if_neg hnwrap]
    rw [hcat, Option.some_bind]
    unfold withLight
    rw [hnl]
    rfl
  · show alGetD c.pedestrian_phase_active iid false = false
    exact hpa
  · show alGet (alSet c.active_phase iid nlid) iid = some nlid
    rw [alGet_alSet, if_pos rfl]
  · show (alGet (alSet c.traffic_lights nlid
      (nl.set_state GREEN (some dur) now)) nlid).map (fun l => l.state)
      = some GREEN
    rw [alGet_alSet, if_pos rfl]
    rfl
  · intro t ht
    show alGet (alSet c.traffic_lights nlid
      (nl.set_state GREEN (some dur) now)) t = alGet c.traffic_lights t
    rw [alGet_alSet, if_neg (fun he => ht he.symm)]

/-- **C7**: the pedestrian phase happens exactly once per traversal of the
member list.  (i) Whenever the active (last-ended) light is RED and the
next index wraps to 0, the pedestrian phase starts — unconditionally on
the `pedestrian_phase_complete` flag, because the code resets that flag
immediately before testing it — setting every member light to PEDESTRIAN
simultaneously and leaving the active phase unchanged.  (ii) Whenever the
next index does not wrap, no pedestrian phase starts: the flag stays
false and the cycle simply advances to the next member, which turns
GREEN.  (iii) On a concrete two-light intersection a full traversal
(member `A` holding GREEN, through `B`, back to `A` turning GREEN)
contains exactly one tick with the pedestrian flag set, at the wrap, with
both lights PEDESTRIAN simultaneously. -/
theorem claim_C7 :
    (∀ (c : Controller) (ch : Bool) (iid : String) (ids : List String)
       (alid : String) (al : TrafficLight) (i : ℕ) (pd : ℤ) (now : Q),
       alGetD c.emergency_active iid false = false →
       alGet c.active_phase iid = some alid →
       alGet c.traffic_lights alid = some al →
       alGetD c.pedestrian_phase_active iid false = false →
       al.state = RED →
       listIndex ids alid = some i →
       (i + 1) % ids.length = 0 →
       calculate_pedestrian_timing c iid = some pd →
       (∀ t ∈ ids, (alGet c.traffic_lights t).isSome) →
       ids.Nodup →
       ∃ c2, processIntersection now (c, ch) (iid, ids) = some (c2, true) ∧
         alGetD c2.pedestrian_phase_active iid false = true ∧
         alGetD c2.pedestrian_phase_complete iid true = false ∧
         (∀ t ∈ ids, (alGet c2.traffic_lights t).map (fun l => l.state)
           = some PEDESTRIAN) ∧
         c2.active_phase = c.active_phase)
  ∧ (∀ (c : Controller) (ch : Bool) (iid : String) (ids : List String)
       (alid nlid : String) (al nl : TrafficLight) (i : ℕ) (dur : ℤ) (now : Q),
       alGetD c.emergency_active iid false = false →
       alGet c.active_phase iid = some alid →
       alGet c.traffic_lights alid = some al →
       alGetD c.pedestrian_phase_active iid false = false →
       al.state = RED →
       listIndex ids alid = some i →
       ¬ (i + 1) % ids.length = 0 →
       ids.get? ((i + 1) % ids.length) = some nlid →
       calculate_adaptive_timing c iid nlid = some dur →
       alGet c.traffic_lights nlid = some nl →
       ∃ c2, processIntersection now (c, ch) (iid, ids) = some (c2, true) ∧
         alGetD c2.pedestrian_phase_active iid false = false ∧
         alGet c2.active_phase iid = some nlid ∧
         (alGet c2.traffic_lights nlid).map (fun l => l.state) = some GREEN ∧
         (∀ t, t ≠ nlid → alGet c2.traffic_lights t = alGet c.traffic_lights t))
  ∧ (create_intersection c7s1 "I" ["A", "B"] (Q.ofInt 0) = some c7s2
     ∧ (alGet c7s2.traffic_lights "A").map (fun l => l.state) = some GREEN
     ∧ alGet c7s2.active_phase "I" = some "A"
     ∧ update_all_lights c7s2 (Q.ofInt 1) = some (c7t1, true)
     ∧ update_all_lights c7t1 (Q.ofInt 5) = some (c7t2, true)
     ∧ update_all_lights c7t2 (Q.ofInt 30) = some (c7t3, true)
     ∧ update_all_lights c7t3 (Q.ofInt 40) = some (c7t4, true)
     ∧ update_all_lights c7t4 (Q.ofInt 60) = some (c7t5, true)
     ∧ (alGet c7t4.traffic_lights "A").map (fun l => l.state) = some PEDESTRIAN
     ∧ (alGet c7t4.traffic_lights "B").map (fun l => l.state) = some PEDESTRIAN
     ∧ (alGet c7t5.traffic_lights "A").map (fun l => l.state) = some GREEN
     ∧ alGet c7t5.active_phase "I" = some "A"
     ∧ ([alGetD c7t1.pedestrian_phase_active "I" false,
         alGetD c7t2.pedestrian_phase_active "I" false,
         alGetD c7t3.pedestrian_phase_active "I" false,
         alGetD c7t4.pedestrian_phase_active "I" false,
         alGetD c7t5.pedestrian_phase_active "I" false].count true = 1)) := by
  refine ⟨ped_wrap_spec, ped_advance_spec, ?_⟩
  decide

/-- Witness for C7, part (i): inside the `t = 40` tick the wrap starts the
pedestrian phase on the concrete two-light intersection. -/
theorem claim_C7_witness :
    ∃ c2, processIntersection (Q.ofInt 40) (c7w, false) ("I", ["A", "B"])
        = some (c2, true) ∧
      alGetD c2.pedestrian_phase_active "I" false = true ∧
      alGetD c2.pedestrian_phase_complete "I" true = false ∧
      (∀ t ∈ ["A", "B"], (alGet c2.traffic_lights t).map (fun l => l.state)
        = some PEDESTRIAN) ∧
      c2.active_phase = c7w.active_phase :=
  (claim_C7).1 c7w false "I" ["A", "B"] "B" c7wB 1 10 (Q.ofInt 40)
    (by decide) (by decide) (by decide) (by decide) (by decide) (by decide)
    (by decide) (by decide) (by decide) (by decide)
